import Mathlib

/-!
Verification of the update-delivery loop and JSON object model of the
`aiotg` Telegram Bot API client (`aiotg/__init__.py`).

The embedding translates the source as follows:

* JSON payloads (the bodies returned by the Bot API) are modelled by the
  inductive `Json`.  Numbers are modelled as integers: every numeric field
  the source actually converts (`update_id`, timestamps passed to
  `datetime.datetime.fromtimestamp`, durations passed to
  `datetime.timedelta`) is an integer on the wire.
* Python exceptions become `Except` values.  `KeyError` (a required field
  missing), `ValueError` (an enumeration constructor applied to an
  unrecognized value) and `TypeError`-like shape errors are the
  constructors of `DecodeError`.
* Fields that the source stores without conversion (plain
  `obj["key"]` / `obj.get("key")` assignments) are kept as raw `Json`
  values; fields the source converts (`ChatType(...)`,
  `MessageEntityType(...)`, `datetime.datetime.fromtimestamp(...)`,
  `datetime.timedelta(seconds=...)`, and `update_id`, on which the polling
  loop performs integer arithmetic) are decoded to typed values.
* The network is stubbed: a cycle's `aiohttp` outcome is a
  `TransportResult` (either a raised network error, or a JSON response
  body), exactly the boundary the spec stubs in its test scenarios.
-/

namespace Aiotg

/-- A JSON value, as produced by `response.json()`. -/
inductive Json where
  | null
  | bool (b : Bool)
  | num (n : Int)
  | str (s : String)
  | arr (elements : List Json)
  | obj (fields : List (String × Json))

mutual

/-- Structural size of a JSON value; strictly decreases through every
nesting level, so it bounds any decoding recursion depth. -/
def Json.size : Json → Nat
  | .null => 1
  | .bool _ => 1
  | .num _ => 1
  | .str _ => 1
  | .arr elements => 1 + Json.sizeList elements
  | .obj fields => 1 + Json.sizeFields fields

/-- Total size of a JSON array's elements. -/
def Json.sizeList : List Json → Nat
  | [] => 0
  | j :: rest => Json.size j + Json.sizeList rest

/-- Total size of a JSON object's field values. -/
def Json.sizeFields : List (String × Json) → Nat
  | [] => 0
  | (_, j) :: rest => Json.size j + Json.sizeFields rest

end

/-- First binding of `key` in an association list (Python `dict` lookup). -/
def lookupField : List (String × Json) → String → Option Json
  | [], _ => none
  | (k, v) :: rest, key => if k = key then some v else lookupField rest key

/-- `obj.get(key)`-style lookup: `none` when the key is absent or the value
is not a JSON object. -/
def Json.getField : Json → String → Option Json
  | .obj fields, key => lookupField fields key
  | _, _ => none

/-- Errors raised while constructing response objects from JSON. -/
inductive DecodeError where
  | keyError (key : String)
  | valueError
  | typeError
  | fuelExhausted
deriving DecidableEq, Repr

/-- `obj[key]`: the value when present, `KeyError` when absent,
a shape error when the receiver is not an object. -/
def Json.getRequired : Json → String → Except DecodeError Json
  | .obj fields, key =>
    match lookupField fields key with
    | some v => .ok v
    | none => .error (.keyError key)
  | _, _ => .error .typeError

/-- The presence test `key in obj` combined with the subscript
`obj[key]`: `some` with the raw JSON value exactly when the key is
present.  This is the access that `get_optional` and
`get_optional_array` perform (they test `key in obj` before
subscripting) and the one behind `obj.get(key, default)` (whose default
applies only to absent keys); a shape error is raised when the receiver
is not an object. -/
def Json.getOpt : Json → String → Except DecodeError (Option Json)
  | .obj fields, key => .ok (lookupField fields key)
  | _, _ => .error .typeError

/-- The Python object a raw JSON value decodes to when stored as an
optional attribute: JSON `null` becomes Python `None` — the very marker
used for an absent field. -/
def pyOptional : Option Json → Option Json
  | some Json.null => none
  | o => o

/-- A plain `obj.get(key)` for fields stored without conversion: the
returned Python object for a present JSON `null` is `None`, exactly
what an absent key yields (`dict.get` returns `None` in both cases);
a shape error is raised when the receiver is not an object. -/
def Json.get : Json → String → Except DecodeError (Option Json)
  | .obj fields, key => .ok (pyOptional (lookupField fields key))
  | _, _ => .error .typeError

/-- A JSON value that must be an integer (timestamps, durations and
`update_id`, on which the source performs arithmetic or calls numeric
constructors). -/
def Json.asInt : Json → Except DecodeError Int
  | .num n => .ok n
  | _ => .error .typeError

/-- Python truthiness of a JSON value, as used by `if payload["ok"]:`. -/
def Json.truthy : Json → Bool
  | .null => false
  | .bool b => b
  | .num n => n != 0
  | .str s => s != ""
  | .arr elements => !elements.isEmpty
  | .obj fields => !fields.isEmpty

/-- Evaluation of a Python list comprehension `[f(x) for x in l]` whose
body may raise: the first raised error aborts the whole comprehension. -/
def mapMExcept (f : α → Except DecodeError β) : List α → Except DecodeError (List β)
  | [] => .ok []
  | x :: xs =>
    match f x with
    | .error e => .error e
    | .ok y =>
      match mapMExcept f xs with
      | .error e => .error e
      | .ok ys => .ok (y :: ys)

/-- `class ChatType(enum.Enum)`. -/
inductive ChatType where
  | «private»
  | group
  | supergroup
  | channel
deriving DecidableEq, Repr

/-- `ChatType(value)`: enum lookup by wire value; `ValueError` on anything
unrecognized. -/
def ChatType.fromJson : Json → Except DecodeError ChatType
  | .str "private" => .ok .«private»
  | .str "group" => .ok .group
  | .str "supergroup" => .ok .supergroup
  | .str "channel" => .ok .channel
  | _ => .error .valueError

/-- `class MessageEntityType(enum.Enum)`. -/
inductive MessageEntityType where
  | mention
  | hashtag
  | bot_command
  | url
  | email
  | bold
  | italic
  | code
  | pre
  | text_link
  | text_mention
deriving DecidableEq, Repr

/-- `MessageEntityType(value)`. -/
def MessageEntityType.fromJson : Json → Except DecodeError MessageEntityType
  | .str "mention" => .ok .mention
  | .str "hashtag" => .ok .hashtag
  | .str "bot_command" => .ok .bot_command
  | .str "url" => .ok .url
  | .str "email" => .ok .email
  | .str "bold" => .ok .bold
  | .str "italic" => .ok .italic
  | .str "code" => .ok .code
  | .str "pre" => .ok .pre
  | .str "text_link" => .ok .text_link
  | .str "text_mention" => .ok .text_mention
  | _ => .error .valueError

/-! ## Event model

One structure per response class of the source.  Field order and names
follow the `__init__` bodies.  Fields stored by the source without
conversion keep their raw `Json` value; optional fields are `Option`s. -/

/-- `class User`. -/
structure User where
  id : Json
  first_name : Json
  last_name : Option Json
  username : Option Json

/-- `class Chat`. -/
structure Chat where
  id : Json
  type : ChatType
  title : Option Json
  username : Option Json
  first_name : Option Json
  last_name : Option Json

/-- `class MessageEntity`. -/
structure MessageEntity where
  type : MessageEntityType
  offset : Json
  length : Json
  url : Option Json
  user : Option User

/-- `class Audio`.  `duration` is the integer number of seconds handed to
`datetime.timedelta`. -/
structure Audio where
  file_id : Json
  duration : Int
  performer : Option Json
  title : Option Json
  mime_type : Option Json
  file_size : Option Json

/-- `class PhotoSize`. -/
structure PhotoSize where
  file_id : Json
  width : Json
  height : Json
  file_size : Option Json

/-- `class Document`. -/
structure Document where
  file_id : Json
  thumbnail : Option PhotoSize
  file_name : Option Json
  mime_type : Option Json
  file_size : Option Json

/-- `class Sticker`. -/
structure Sticker where
  file_id : Json
  width : Json
  height : Json
  thumbnail : Option PhotoSize
  emoji : Option Json
  file_size : Option Json

/-- `class Video`. -/
structure Video where
  file_id : Json
  width : Json
  height : Json
  duration : Int
  thumbnail : Option PhotoSize
  mime_type : Option Json
  file_size : Option Json

/-- `class Voice`. -/
structure Voice where
  file_id : Json
  duration : Int
  mime_type : Option Json
  file_size : Option Json

/-- `class Contact`. -/
structure Contact where
  phone_number : Json
  first_name : Json
  last_name : Option Json
  user_id : Option Json

/-- `class Location`. -/
structure Location where
  longitude : Json
  latitude : Json

/-- `class Venue`. -/
structure Venue where
  location : Location
  title : Json
  address : Json
  foursquare_id : Option Json

/-- `class InlineQuery`. -/
structure InlineQuery where
  id : Json
  from_ : User
  location : Option Location
  query : Json
  offset : Json

/-- `class ChosenInlineResult`. -/
structure ChosenInlineResult where
  result_id : Json
  from_ : User
  location : Option Location
  inline_message_id : Option Json
  query : Json

/-- The non-recursive fields of `class Message`, in source order.
`date`, `forward_date` and `edit_date` are the integer timestamps handed
to `datetime.datetime.fromtimestamp`.  The four `*_chat_created` /
`delete_chat_photo` service flags keep the raw
`message.get(key, False)` result. -/
structure MessageData where
  id : Json
  from_ : Option User
  date : Int
  chat : Chat
  forward_from : Option User
  forward_from_chat : Option Chat
  forward_date : Option Int
  edit_date : Option Int
  text : Option Json
  entities : Option (List MessageEntity)
  audio : Option Audio
  document : Option Document
  photo : Option (List PhotoSize)
  sticker : Option Sticker
  video : Option Video
  voice : Option Voice
  caption : Option Json
  contact : Option Contact
  location : Option Location
  venue : Option Venue
  new_chat_member : Option User
  left_chat_member : Option User
  new_chat_title : Option Json
  new_chat_photo : Option (List PhotoSize)
  delete_chat_photo : Json
  group_chat_created : Json
  supergroup_chat_created : Json
  channel_chat_created : Json
  migrate_to_chat_id : Option Json
  migrate_from_chat_id : Option Json

/-- `class Message`: the recursive `reply_to_message` and
`pinned_message` fields force an inductive rather than a structure. -/
inductive Message where
  | mk (data : MessageData) (reply_to_message : Option Message)
      (pinned_message : Option Message)

/-- The non-recursive fields of a message. -/
def Message.data : Message → MessageData
  | .mk d _ _ => d

/-- `message.reply_to_message`. -/
def Message.reply_to_message : Message → Option Message
  | .mk _ r _ => r

/-- `message.pinned_message`. -/
def Message.pinned_message : Message → Option Message
  | .mk _ _ p => p

/-- `class CallbackQuery`. -/
structure CallbackQuery where
  id : Json
  from_ : User
  message : Option Message
  inline_message_id : Option Json
  data : Json

/-- `class Update`: one inbound event; `id` is the `update_id` cursor key
on which the polling loop performs `update.id + 1`. -/
structure Update where
  id : Int
  message : Option Message
  edited_message : Option Message
  channel_post : Option Message
  edited_channel_post : Option Message
  inline_query : Option InlineQuery
  chosen_inline_result : Option ChosenInlineResult
  callback_query : Option CallbackQuery

/-! ## Decoders

One decoder per `__init__` body, reading the fields in source order. -/

/-- `def get_optional(obj, key, init)`:
`init(obj[key]) if key in obj else None`. -/
def get_optional (obj : Json) (key : String)
    (init : Json → Except DecodeError α) : Except DecodeError (Option α) :=
  match obj.getOpt key with
  | .error e => .error e
  | .ok (some v) =>
    match init v with
    | .error e => .error e
    | .ok x => .ok (some x)
  | .ok none => .ok none

/-- `def get_optional_array(obj, key, init)`:
`[init(item) for item in obj[key]] if key in obj else None`. -/
def get_optional_array (obj : Json) (key : String)
    (init : Json → Except DecodeError α) : Except DecodeError (Option (List α)) :=
  match obj.getOpt key with
  | .error e => .error e
  | .ok (some (Json.arr items)) =>
    match mapMExcept init items with
    | .error e => .error e
    | .ok xs => .ok (some xs)
  | .ok (some _) => .error .typeError
  | .ok none => .ok none

/-- `User.__init__`. -/
def decodeUser (j : Json) : Except DecodeError User := do
  let id ← j.getRequired "id"
  let first_name ← j.getRequired "first_name"
  let last_name ← j.get "last_name"
  let username ← j.get "username"
  return ⟨id, first_name, last_name, username⟩

/-- `Chat.__init__`. -/
def decodeChat (j : Json) : Except DecodeError Chat := do
  let id ← j.getRequired "id"
  let type ← ChatType.fromJson (← j.getRequired "type")
  let title ← j.get "title"
  let username ← j.get "username"
  let first_name ← j.get "first_name"
  let last_name ← j.get "last_name"
  return ⟨id, type, title, username, first_name, last_name⟩

/-- `MessageEntity.__init__`. -/
def decodeMessageEntity (j : Json) : Except DecodeError MessageEntity := do
  let type ← MessageEntityType.fromJson (← j.getRequired "type")
  let offset ← j.getRequired "offset"
  let length ← j.getRequired "length"
  let url ← j.get "url"
  let user ← get_optional j "user" decodeUser
  return ⟨type, offset, length, url, user⟩

/-- `Audio.__init__`. -/
def decodeAudio (j : Json) : Except DecodeError Audio := do
  let file_id ← j.getRequired "file_id"
  let duration ← (← j.getRequired "duration").asInt
  let performer ← j.get "performer"
  let title ← j.get "title"
  let mime_type ← j.get "mime_type"
  let file_size ← j.get "file_size"
  return ⟨file_id, duration, performer, title, mime_type, file_size⟩

/-- `PhotoSize.__init__`. -/
def decodePhotoSize (j : Json) : Except DecodeError PhotoSize := do
  let file_id ← j.getRequired "file_id"
  let width ← j.getRequired "width"
  let height ← j.getRequired "height"
  let file_size ← j.get "file_size"
  return ⟨file_id, width, height, file_size⟩

/-- `Document.__init__`. -/
def decodeDocument (j : Json) : Except DecodeError Document := do
  let file_id ← j.getRequired "file_id"
  let thumbnail ← get_optional j "thumb" decodePhotoSize
  let file_name ← j.get "file_name"
  let mime_type ← j.get "mime_type"
  let file_size ← j.get "file_size"
  return ⟨file_id, thumbnail, file_name, mime_type, file_size⟩

/-- `Sticker.__init__`. -/
def decodeSticker (j : Json) : Except DecodeError Sticker := do
  let file_id ← j.getRequired "file_id"
  let width ← j.getRequired "width"
  let height ← j.getRequired "height"
  let thumbnail ← get_optional j "thumb" decodePhotoSize
  let emoji ← j.get "emoji"
  let file_size ← j.get "file_size"
  return ⟨file_id, width, height, thumbnail, emoji, file_size⟩

/-- `Video.__init__`. -/
def decodeVideo (j : Json) : Except DecodeError Video := do
  let file_id ← j.getRequired "file_id"
  let width ← j.getRequired "width"
  let height ← j.getRequired "height"
  let duration ← (← j.getRequired "duration").asInt
  let thumbnail ← get_optional j "thumb" decodePhotoSize
  let mime_type ← j.get "mime_type"
  let file_size ← j.get "file_size"
  return ⟨file_id, width, height, duration, thumbnail, mime_type, file_size⟩

/-- `Voice.__init__`. -/
def decodeVoice (j : Json) : Except DecodeError Voice := do
  let file_id ← j.getRequired "file_id"
  let duration ← (← j.getRequired "duration").asInt
  let mime_type ← j.get "mime_type"
  let file_size ← j.get "file_size"
  return ⟨file_id, duration, mime_type, file_size⟩

/-- `Contact.__init__`. -/
def decodeContact (j : Json) : Except DecodeError Contact := do
  let phone_number ← j.getRequired "phone_number"
  let first_name ← j.getRequired "first_name"
  let last_name ← j.get "last_name"
  let user_id ← j.get "user_id"
  return ⟨phone_number, first_name, last_name, user_id⟩

/-- `Location.__init__`. -/
def decodeLocation (j : Json) : Except DecodeError Location := do
  let longitude ← j.getRequired "longitude"
  let latitude ← j.getRequired "latitude"
  return ⟨longitude, latitude⟩

/-- `Venue.__init__`. -/
def decodeVenue (j : Json) : Except DecodeError Venue := do
  let location ← decodeLocation (← j.getRequired "location")
  let title ← j.getRequired "title"
  let address ← j.getRequired "address"
  let foursquare_id ← j.get "foursquare_id"
  return ⟨location, title, address, foursquare_id⟩

/-- `InlineQuery.__init__`. -/
def decodeInlineQuery (j : Json) : Except DecodeError InlineQuery := do
  let id ← j.getRequired "id"
  let from_ ← decodeUser (← j.getRequired "from")
  let location ← get_optional j "location" decodeLocation
  let query ← j.getRequired "query"
  let offset ← j.getRequired "offset"
  return ⟨id, from_, location, query, offset⟩

/-- `ChosenInlineResult.__init__`. -/
def decodeChosenInlineResult (j : Json) : Except DecodeError ChosenInlineResult := do
  let result_id ← j.getRequired "result_id"
  let from_ ← decodeUser (← j.getRequired "from")
  let location ← get_optional j "location" decodeLocation
  let inline_message_id ← j.get "inline_message_id"
  let query ← j.getRequired "query"
  return ⟨result_id, from_, location, inline_message_id, query⟩

/-- `Message.__init__`, with explicit recursion fuel for the
`reply_to_message` and `pinned_message` self-references (Python's
recursion is bounded only by the interpreter stack; the wrapper
`decodeMessage` supplies fuel that covers any input's nesting depth). -/
def decodeMessageF : Nat → Json → Except DecodeError Message
  | 0, _ => .error .fuelExhausted
  | fuel + 1, j => do
    let id ← j.getRequired "message_id"
    let from_ ← get_optional j "from" decodeUser
    let date ← (← j.getRequired "date").asInt
    let chat ← decodeChat (← j.getRequired "chat")
    let forward_from ← get_optional j "forward_from" decodeUser
    let forward_from_chat ← get_optional j "forward_from_chat" decodeChat
    let forward_date ← get_optional j "forward_date" Json.asInt
    let reply_to_message ← get_optional j "reply_to_message" (decodeMessageF fuel)
    let edit_date ← get_optional j "edit_date" Json.asInt
    let text ← j.get "text"
    let entities ← get_optional_array j "entities" decodeMessageEntity
    let audio ← get_optional j "audio" decodeAudio
    let document ← get_optional j "document" decodeDocument
    let photo ← get_optional_array j "photo" decodePhotoSize
    let sticker ← get_optional j "sticker" decodeSticker
    let video ← get_optional j "video" decodeVideo
    let voice ← get_optional j "voice" decodeVoice
    let caption ← j.get "caption"
    let contact ← get_optional j "contact" decodeContact
    let location ← get_optional j "location" decodeLocation
    let venue ← get_optional j "venue" decodeVenue
    let new_chat_member ← get_optional j "new_chat_member" decodeUser
    let left_chat_member ← get_optional j "left_chat_member" decodeUser
    let new_chat_title ← j.get "new_chat_title"
    let new_chat_photo ← get_optional_array j "new_chat_photo" decodePhotoSize
    let delete_chat_photo ← j.getOpt "delete_chat_photo"
    let group_chat_created ← j.getOpt "group_chat_created"
    let supergroup_chat_created ← j.getOpt "supergroup_chat_created"
    let channel_chat_created ← j.getOpt "channel_chat_created"
    let migrate_to_chat_id ← j.get "migrate_to_chat_id"
    let migrate_from_chat_id ← j.get "migrate_from_chat_id"
    let pinned_message ← get_optional j "pinned_message" (decodeMessageF fuel)
    return .mk
      ⟨id, from_, date, chat, forward_from, forward_from_chat, forward_date,
        edit_date, text, entities, audio, document, photo, sticker, video,
        voice, caption, contact, location, venue, new_chat_member,
        left_chat_member, new_chat_title, new_chat_photo,
        delete_chat_photo.getD (Json.bool false),
        group_chat_created.getD (Json.bool false),
        supergroup_chat_created.getD (Json.bool false),
        channel_chat_created.getD (Json.bool false),
        migrate_to_chat_id, migrate_from_chat_id⟩
      reply_to_message pinned_message

/-- `Message(message)`: `sizeOf` strictly decreases through every nesting
level, so it bounds the recursion depth of any input. -/
def decodeMessage (j : Json) : Except DecodeError Message :=
  decodeMessageF j.size j

/-- `CallbackQuery.__init__`. -/
def decodeCallbackQuery (j : Json) : Except DecodeError CallbackQuery := do
  let id ← j.getRequired "id"
  let from_ ← decodeUser (← j.getRequired "from")
  let message ← get_optional j "message" decodeMessage
  let inline_message_id ← j.get "inline_message_id"
  let data ← j.getRequired "data"
  return ⟨id, from_, message, inline_message_id, data⟩

/-- `Update.__init__`: `update_id` is required and must be an integer (the
polling loop computes `update.id + 1` on it). -/
def decodeUpdate (j : Json) : Except DecodeError Update := do
  let id ← (← j.getRequired "update_id").asInt
  let message ← get_optional j "message" decodeMessage
  let edited_message ← get_optional j "edited_message" decodeMessage
  let channel_post ← get_optional j "channel_post" decodeMessage
  let edited_channel_post ← get_optional j "edited_channel_post" decodeMessage
  let inline_query ← get_optional j "inline_query" decodeInlineQuery
  let chosen_inline_result ← get_optional j "chosen_inline_result" decodeChosenInlineResult
  let callback_query ← get_optional j "callback_query" decodeCallbackQuery
  return ⟨id, message, edited_message, channel_post, edited_channel_post,
    inline_query, chosen_inline_result, callback_query⟩

/-! ## Transport: `Telegram.make_request` and `Telegram.get_updates` -/

/-- The reasons a `make_request` call raises. -/
inductive ApiFailure where
  | keyError (key : String)
  | telegramException (description : Json)

/-- The classification performed by `Telegram.make_request` on the decoded
JSON response body: `if payload["ok"]: return payload["result"]` /
`else: raise TelegramException(payload["description"])`.  A missing
envelope field raises `KeyError`, exactly as `payload["ok"]` would. -/
def make_request (payload : Json) : Except ApiFailure Json :=
  match payload.getField "ok" with
  | none => .error (.keyError "ok")
  | some okValue =>
    if okValue.truthy then
      match payload.getField "result" with
      | some result => .ok result
      | none => .error (.keyError "result")
    else
      match payload.getField "description" with
      | some description => .error (.telegramException description)
      | none => .error (.keyError "description")

/-- What one `aiohttp` round trip delivered for a cycle: either a raised
network-level exception, or an HTTP response whose JSON body was decoded.
This is the boundary the spec stubs in its scenarios. -/
inductive TransportResult where
  | netError
  | response (payload : Json)

/-- Any exception `Telegram.get_updates` can raise into the polling loop:
a network error, an API error from `make_request`, or an error while
constructing the `Update` objects. -/
inductive FetchError where
  | network
  | api (e : ApiFailure)
  | decode (e : DecodeError)
  | resultNotArray

/-- `Telegram.get_updates`: posts `getUpdates` and builds the list
`[Update(update) for update in result]`; every error escapes to the
caller before the polling loop sees a single event. -/
def get_updates (tr : TransportResult) : Except FetchError (List Update) :=
  match tr with
  | .netError => .error .network
  | .response payload =>
    match make_request payload with
    | .error e => .error (.api e)
    | .ok (Json.arr items) =>
      match mapMExcept decodeUpdate items with
      | .error e => .error (.decode e)
      | .ok updates => .ok updates
    | .ok _ => .error .resultNotArray

/-! ## The polling loop: `LongPollingRunner`

The runner's mutable attributes form the state; `loop` is one cycle;
`run` is the `while not self.is_stopped` driver.  `bot.on_update` is an
arbitrary handler function that either returns or raises
(`Except String Unit`), and `stop()` requests are delivered through the
per-cycle stimulus (in the single-threaded asyncio model, `stop()` runs
at an await point inside a cycle and is observed at the top of the next
`while` test). -/

/-- The mutable attributes set by `LongPollingRunner.__init__`. -/
structure LongPollingRunner where
  limit : Int
  timeout : Int
  offset : Int
  is_stopped : Bool
deriving DecidableEq, Repr

/-- `LongPollingRunner.__init__`: `self.offset = 0`,
`self.is_stopped = False` (defaults: `limit=100`, `timeout=5`). -/
def LongPollingRunner.init (limit : Int := 100) (timeout : Int := 5) :
    LongPollingRunner :=
  { limit := limit, timeout := timeout, offset := 0, is_stopped := false }

/-- `LongPollingRunner.stop`: `self.is_stopped = True`. -/
def LongPollingRunner.stop (st : LongPollingRunner) : LongPollingRunner :=
  { st with is_stopped := true }

/-- One observable handler invocation: the event handed to
`bot.on_update`, and whether that call raised (the error is logged and
swallowed by the loop). -/
structure DispatchRecord where
  update : Update
  handlerRaised : Bool

/-- The parameters of one issued `get_updates` fetch. -/
structure FetchCall where
  offset : Int
  limit : Int
  timeout : Int
deriving DecidableEq, Repr

/-- Everything observable about one executed cycle of `loop()`. -/
structure CycleTrace where
  request : FetchCall
  fetchFailed : Bool
  dispatched : List DispatchRecord

/-- The `for update in updates:` body iterated over a batch: dispatch each
event (catching any handler error), then unconditionally
`self.offset = update.id + 1`.  Returns the final offset and the
dispatch records in order. -/
def dispatchAll (handler : Update → Except String Unit) (offset : Int) :
    List Update → Int × List DispatchRecord
  | [] => (offset, [])
  | u :: rest =>
    let record : DispatchRecord :=
      match handler u with
      | .ok _ => ⟨u, false⟩
      | .error _ => ⟨u, true⟩
    let step := dispatchAll handler (u.id + 1) rest
    (step.1, record :: step.2)

/-- `LongPollingRunner.loop`: one cycle.  A fetch error is caught, logged
and ends the cycle with the state untouched; a decoded batch is dispatched
in order. -/
def loopCycle (handler : Update → Except String Unit) (tr : TransportResult)
    (st : LongPollingRunner) : LongPollingRunner × CycleTrace :=
  let request : FetchCall := ⟨st.offset, st.limit, st.timeout⟩
  match get_updates tr with
  | .error _ => (st, ⟨request, true, []⟩)
  | .ok updates =>
    let step := dispatchAll handler st.offset updates
    ({ st with offset := step.1 }, ⟨request, false, step.2⟩)

/-- The external stimulus consumed by one cycle: what the network returns
for its fetch, and whether `stop()` is invoked at some await point during
the cycle. -/
structure CycleStimulus where
  transport : TransportResult
  stopDuring : Bool

/-- The outcome of driving the `while not self.is_stopped` loop against a
finite stimulus schedule. -/
structure RunResult where
  final : LongPollingRunner
  trace : List CycleTrace
  observedStop : Bool

/-- The `while not self.is_stopped: await self.loop()` driver.  The flag
is tested at the top of each cycle; when the schedule is exhausted while
the flag is still clear, the loop would keep polling (`observedStop`
distinguishes return from horizon). -/
def runLoop (handler : Update → Except String Unit) :
    List CycleStimulus → LongPollingRunner → RunResult
  | [], st => ⟨st, [], st.is_stopped⟩
  | s :: rest, st =>
    if st.is_stopped then ⟨st, [], true⟩
    else
      let cycle := loopCycle handler s.transport st
      let st2 := if s.stopDuring then cycle.1.stop else cycle.1
      let tail := runLoop handler rest st2
      ⟨tail.final, cycle.2 :: tail.trace, tail.observedStop⟩

/-- `LongPollingRunner.run`: `await self.bot.on_start(self.telegram)` is
not guarded, so a raising start hook aborts `run` before any fetch; then
the while loop never raises. -/
def run (onStartRaises : Bool) (handler : Update → Except String Unit)
    (stimuli : List CycleStimulus) (st : LongPollingRunner) :
    Except String RunResult :=
  if onStartRaises then .error "on_start raised"
  else .ok (runLoop handler stimuli st)

/-- The event identifiers of the records dispatched in one cycle. -/
def CycleTrace.ids (tr : CycleTrace) : List Int :=
  tr.dispatched.map fun r => r.update.id

/-- The offset the cycle left behind: the last dispatched event's id plus
one, or the requested offset when nothing was dispatched. -/
def CycleTrace.postOffset (tr : CycleTrace) : Int :=
  match tr.dispatched.getLast? with
  | some r => r.update.id + 1
  | none => tr.request.offset

/-- All event identifiers iterated over the whole run, in order. -/
def traceIds : List CycleTrace → List Int
  | [] => []
  | tr :: rest => tr.ids ++ traceIds rest

/-! ## Inversion helpers for `Except` computations -/

theorem except_bind_ok {ε α β : Type} (x : Except ε α) (f : α → Except ε β) (b : β) :
    (x >>= f = Except.ok b) ↔ ∃ a, x = Except.ok a ∧ f a = Except.ok b := by
  cases x <;> simp [Bind.bind, Except.bind]

theorem except_pure_ok {ε α : Type} (a b : α) :
    ((pure a : Except ε α) = Except.ok b) ↔ a = b := by
  simp [pure, Except.pure]

/-- A successful `obj.get(key)` returns exactly the field-presence lookup. -/
theorem getOpt_ok {j : Json} {key : String} {v : Option Json}
    (h : j.getOpt key = .ok v) : v = j.getField key := by
  cases j <;> simp [Json.getOpt, Json.getField] at h ⊢ <;> exact h.symm

/-- A successful raw `obj.get(key)` returns the null-collapsed lookup:
`None` both for an absent key and for a present JSON `null`. -/
theorem getRaw_ok {j : Json} {key : String} {v : Option Json}
    (h : j.get key = .ok v) : v = pyOptional (j.getField key) := by
  cases j <;> simp [Json.get, Json.getField] at h ⊢ <;> exact h.symm

/-- A successful `get_optional` is `some` exactly when the key is present. -/
theorem get_optional_isSome {j : Json} {key : String}
    {init : Json → Except DecodeError α} {r : Option α}
    (h : get_optional j key init = .ok r) :
    r.isSome = (j.getField key).isSome := by
  cases j <;> simp [get_optional, Json.getOpt, Json.getField] at h ⊢
  case obj fields =>
    cases hl : lookupField fields key with
    | none => simp [hl] at h; simp [← h]
    | some v =>
      simp [hl] at h
      cases hi : init v <;> simp [hi] at h
      simp [← h]

/-- A successful `get_optional_array` is `some` exactly when the key is
present. -/
theorem get_optional_array_isSome {j : Json} {key : String}
    {init : Json → Except DecodeError α} {r : Option (List α)}
    (h : get_optional_array j key init = .ok r) :
    r.isSome = (j.getField key).isSome := by
  cases j <;> simp [get_optional_array, Json.getOpt, Json.getField] at h ⊢
  case obj fields =>
    cases hl : lookupField fields key with
    | none => simp [hl] at h; simp [← h]
    | some v =>
      simp [hl] at h
      cases v <;> simp at h
      case arr items =>
        cases hi : mapMExcept init items <;> simp [hi] at h
        simp [← h]

/-- If any element of the list raises, the whole comprehension raises. -/
theorem mapMExcept_error_of_mem {f : α → Except DecodeError β} {l : List α}
    {x : α} {e : DecodeError} (hx : x ∈ l) (hfx : f x = .error e) :
    ∃ e2, mapMExcept f l = .error e2 := by
  induction l with
  | nil => cases hx
  | cons y rest ih =>
    rcases List.mem_cons.mp hx with rfl | hx2
    · exact ⟨e, by simp [mapMExcept, hfx]⟩
    · cases hfy : f y with
      | error e3 => exact ⟨e3, by simp [mapMExcept, hfy]⟩
      | ok b =>
        obtain ⟨e2, he2⟩ := ih hx2
        exact ⟨e2, by simp [mapMExcept, hfy, he2]⟩

/-! ## Lemmas about the dispatch step -/

/-- Every event of the batch is handed to the handler, in batch order,
whatever the handler does. -/
theorem dispatchAll_updates (handler : Update → Except String Unit)
    (offset : Int) (us : List Update) :
    ((dispatchAll handler offset us).2).map (fun r => r.update) = us := by
  induction us generalizing offset with
  | nil => rfl
  | cons u rest ih =>
    cases hh : handler u <;> simp [dispatchAll, hh, ih]

/-- The offset left by the `for` loop: the last event's id plus one, or
the incoming offset for an empty batch. -/
theorem dispatchAll_offset (handler : Update → Except String Unit)
    (offset : Int) (us : List Update) :
    (dispatchAll handler offset us).1 =
      (match us.getLast? with
       | some u => u.id + 1
       | none => offset) := by
  induction us generalizing offset with
  | nil => rfl
  | cons u rest ih =>
    show (dispatchAll handler (u.id + 1) rest).1 = _
    rw [ih]
    cases rest with
    | nil => simp
    | cons b bs =>
      rw [List.getLast?_cons_cons]
      cases hl : (b :: bs).getLast? with
      | none => simp at hl
      | some v => rfl

/-- The final offset does not depend on which events made the handler
raise. -/
theorem dispatchAll_handler_independent (h1 h2 : Update → Except String Unit)
    (offset : Int) (us : List Update) :
    (dispatchAll h1 offset us).1 = (dispatchAll h2 offset us).1 := by
  simp [dispatchAll_offset]

/-! ## Lemmas about one cycle of `loop()` -/

/-- A failed fetch ends the cycle with the runner state untouched and
nothing dispatched. -/
theorem loopCycle_error (handler : Update → Except String Unit)
    {tr : TransportResult} (st : LongPollingRunner) {e : FetchError}
    (h : get_updates tr = .error e) :
    loopCycle handler tr st = (st, ⟨⟨st.offset, st.limit, st.timeout⟩, true, []⟩) := by
  simp [loopCycle, h]

/-- A successful fetch dispatches the whole decoded batch. -/
theorem loopCycle_ok (handler : Update → Except String Unit)
    {tr : TransportResult} (st : LongPollingRunner) {us : List Update}
    (h : get_updates tr = .ok us) :
    loopCycle handler tr st =
      ({ st with offset := (dispatchAll handler st.offset us).1 },
       ⟨⟨st.offset, st.limit, st.timeout⟩, false, (dispatchAll handler st.offset us).2⟩) := by
  simp [loopCycle, h]

/-- The fetch of a cycle is always issued with the runner's current
offset, limit and timeout. -/
theorem loopCycle_request (handler : Update → Except String Unit)
    (tr : TransportResult) (st : LongPollingRunner) :
    (loopCycle handler tr st).2.request = ⟨st.offset, st.limit, st.timeout⟩ := by
  cases h : get_updates tr
  · simp [loopCycle_error handler st h]
  · simp [loopCycle_ok handler st h]

/-- A cycle never touches `limit`, `timeout` or the stop flag. -/
theorem loopCycle_preserves (handler : Update → Except String Unit)
    (tr : TransportResult) (st : LongPollingRunner) :
    (loopCycle handler tr st).1.limit = st.limit
    ∧ (loopCycle handler tr st).1.timeout = st.timeout
    ∧ (loopCycle handler tr st).1.is_stopped = st.is_stopped := by
  cases h : get_updates tr
  · simp [loopCycle_error handler st h]
  · simp [loopCycle_ok handler st h]

/-- The state a cycle leaves behind carries exactly the trace's
post-offset. -/
theorem loopCycle_offset_eq_post (handler : Update → Except String Unit)
    (tr : TransportResult) (st : LongPollingRunner) :
    (loopCycle handler tr st).1.offset = (loopCycle handler tr st).2.postOffset := by
  cases h : get_updates tr with
  | error e => simp [loopCycle_error handler st h, CycleTrace.postOffset]
  | ok us =>
    simp only [loopCycle_ok handler st h, CycleTrace.postOffset, dispatchAll_offset]
    have hmap := dispatchAll_updates handler st.offset us
    have hlast : us.getLast? =
        (((dispatchAll handler st.offset us).2).getLast?).map (fun r => r.update) := by
      rw [← List.getLast?_map, hmap]
    rw [hlast]
    cases ((dispatchAll handler st.offset us).2).getLast? <;> simp

/-- A cycle whose fetch failed dispatched nothing. -/
theorem loopCycle_failed_empty (handler : Update → Except String Unit)
    (tr : TransportResult) (st : LongPollingRunner)
    (h : (loopCycle handler tr st).2.fetchFailed = true) :
    (loopCycle handler tr st).2.dispatched = [] := by
  cases hg : get_updates tr with
  | error e => simp [loopCycle_error handler st hg]
  | ok us => simp [loopCycle_ok handler st hg] at h

/-! ## Lemmas about the `run()` driver -/

/-- The state entering the next cycle: the cycle's own mutation composed
with a possible `stop()` call delivered during the cycle. -/
def stepState (handler : Update → Except String Unit) (s : CycleStimulus)
    (st : LongPollingRunner) : LongPollingRunner :=
  if s.stopDuring then (loopCycle handler s.transport st).1.stop
  else (loopCycle handler s.transport st).1

theorem stepState_offset (handler : Update → Except String Unit)
    (s : CycleStimulus) (st : LongPollingRunner) :
    (stepState handler s st).offset = (loopCycle handler s.transport st).1.offset := by
  cases hsd : s.stopDuring <;> simp [stepState, hsd, LongPollingRunner.stop]

theorem stepState_limits (handler : Update → Except String Unit)
    (s : CycleStimulus) (st : LongPollingRunner) :
    (stepState handler s st).limit = st.limit
    ∧ (stepState handler s st).timeout = st.timeout := by
  obtain ⟨h1, h2, _⟩ := loopCycle_preserves handler s.transport st
  cases hsd : s.stopDuring <;> simp [stepState, hsd, LongPollingRunner.stop, h1, h2]

theorem stepState_is_stopped (handler : Update → Except String Unit)
    (s : CycleStimulus) (st : LongPollingRunner) :
    (stepState handler s st).is_stopped = (s.stopDuring || st.is_stopped) := by
  obtain ⟨_, _, h3⟩ := loopCycle_preserves handler s.transport st
  cases hsd : s.stopDuring <;> simp [stepState, hsd, LongPollingRunner.stop, h3]

theorem runLoop_stopped (handler : Update → Except String Unit)
    (stimuli : List CycleStimulus) (st : LongPollingRunner)
    (hs : st.is_stopped = true) :
    runLoop handler stimuli st = ⟨st, [], true⟩ := by
  cases stimuli <;> simp [runLoop, hs]

theorem runLoop_cons (handler : Update → Except String Unit)
    (s : CycleStimulus) (rest : List CycleStimulus) (st : LongPollingRunner)
    (hs : st.is_stopped = false) :
    runLoop handler (s :: rest) st =
      ⟨(runLoop handler rest (stepState handler s st)).final,
        (loopCycle handler s.transport st).2 ::
          (runLoop handler rest (stepState handler s st)).trace,
        (runLoop handler rest (stepState handler s st)).observedStop⟩ := by
  simp [runLoop, hs, stepState]

/-- The first fetch of a run is issued with the incoming state's
parameters. -/
theorem runLoop_get0_request (handler : Update → Except String Unit)
    (stimuli : List CycleStimulus) (st : LongPollingRunner) :
    ∀ tr0, (runLoop handler stimuli st).trace[0]? = some tr0 →
      tr0.request = ⟨st.offset, st.limit, st.timeout⟩ := by
  intro tr0 h0
  cases stimuli with
  | nil => simp [runLoop] at h0
  | cons s rest =>
    cases hs : st.is_stopped with
    | true =>
      rw [runLoop_stopped handler _ st hs] at h0
      simp at h0
    | false =>
      rw [runLoop_cons handler s rest st hs] at h0
      simp at h0
      rw [← h0]
      exact loopCycle_request handler s.transport st

/-- Consecutive fetches chain through the post-offset: the next cycle
requests exactly the offset the previous cycle left behind. -/
theorem runLoop_adjacent (handler : Update → Except String Unit)
    (stimuli : List CycleStimulus) (st : LongPollingRunner) :
    ∀ (k : Nat) (trk trk1 : CycleTrace),
      (runLoop handler stimuli st).trace[k]? = some trk →
      (runLoop handler stimuli st).trace[k + 1]? = some trk1 →
      trk1.request.offset = trk.postOffset := by
  induction stimuli generalizing st with
  | nil => intro k trk trk1 hk; simp [runLoop] at hk
  | cons s rest ih =>
    intro k trk trk1 hk hk1
    cases hs : st.is_stopped with
    | true =>
      rw [runLoop_stopped handler _ st hs] at hk
      simp at hk
    | false =>
      rw [runLoop_cons handler s rest st hs] at hk hk1
      cases k with
      | zero =>
        simp only [List.getElem?_cons_zero, Option.some.injEq] at hk
        simp only [List.getElem?_cons_succ] at hk1
        have := runLoop_get0_request handler rest (stepState handler s st) trk1 hk1
        rw [this, ← hk]
        show (stepState handler s st).offset = _
        rw [stepState_offset handler s st,
          loopCycle_offset_eq_post handler s.transport st]
      | succ k2 =>
        simp only [List.getElem?_cons_succ] at hk hk1
        exact ih (stepState handler s st) k2 trk trk1 hk hk1

/-- The final state's offset is the last cycle's post-offset (or the
incoming offset when no cycle ran). -/
theorem runLoop_final_offset (handler : Update → Except String Unit)
    (stimuli : List CycleStimulus) (st : LongPollingRunner) :
    (runLoop handler stimuli st).final.offset =
      (match (runLoop handler stimuli st).trace.getLast? with
       | some tr => tr.postOffset
       | none => st.offset) := by
  induction stimuli generalizing st with
  | nil => rfl
  | cons s rest ih =>
    cases hs : st.is_stopped with
    | true => rw [runLoop_stopped handler _ st hs]; rfl
    | false =>
      rw [runLoop_cons handler s rest st hs]
      show (runLoop handler rest (stepState handler s st)).final.offset = _
      rw [ih (stepState handler s st)]
      cases htl : (runLoop handler rest (stepState handler s st)).trace with
      | nil =>
        simp [stepState_offset handler s st,
          loopCycle_offset_eq_post handler s.transport st]
      | cons t ts =>
        show _ = (match ((loopCycle handler s.transport st).2 :: t :: ts).getLast? with
          | some tr => tr.postOffset
          | none => st.offset)
        rw [List.getLast?_cons_cons]
        cases hgl : (t :: ts).getLast? with
        | none => simp at hgl
        | some tr => rfl

/-- The run never changes `limit` or `timeout`. -/
theorem runLoop_final_limits (handler : Update → Except String Unit)
    (stimuli : List CycleStimulus) (st : LongPollingRunner) :
    (runLoop handler stimuli st).final.limit = st.limit
    ∧ (runLoop handler stimuli st).final.timeout = st.timeout := by
  induction stimuli generalizing st with
  | nil => exact ⟨rfl, rfl⟩
  | cons s rest ih =>
    cases hs : st.is_stopped with
    | true => rw [runLoop_stopped handler _ st hs]; exact ⟨rfl, rfl⟩
    | false =>
      rw [runLoop_cons handler s rest st hs]
      obtain ⟨h1, h2⟩ := ih (stepState handler s st)
      obtain ⟨h3, h4⟩ := stepState_limits handler s st
      exact ⟨h1.trans h3, h2.trans h4⟩

/-- At most one cycle runs per stimulus. -/
theorem runLoop_length_le (handler : Update → Except String Unit)
    (stimuli : List CycleStimulus) (st : LongPollingRunner) :
    (runLoop handler stimuli st).trace.length ≤ stimuli.length := by
  induction stimuli generalizing st with
  | nil => exact Nat.le_refl 0
  | cons s rest ih =>
    cases hs : st.is_stopped with
    | true => rw [runLoop_stopped handler _ st hs]; simp
    | false =>
      rw [runLoop_cons handler s rest st hs]
      simpa using ih (stepState handler s st)

/-- Every executed cycle in a run's trace is one `loop()` execution
against its stimulus's transport outcome. -/
theorem runLoop_trace_src (handler : Update → Except String Unit)
    (stimuli : List CycleStimulus) (st : LongPollingRunner) :
    ∀ (k : Nat) (trk : CycleTrace) (sk : CycleStimulus),
      (runLoop handler stimuli st).trace[k]? = some trk →
      stimuli[k]? = some sk →
      ∃ stEnter, trk = (loopCycle handler sk.transport stEnter).2 := by
  induction stimuli generalizing st with
  | nil => intro k trk sk hk; simp [runLoop] at hk
  | cons s rest ih =>
    intro k trk sk hk hk2
    cases hs : st.is_stopped with
    | true =>
      rw [runLoop_stopped handler _ st hs] at hk
      simp at hk
    | false =>
      rw [runLoop_cons handler s rest st hs] at hk
      cases k with
      | zero =>
        simp only [List.getElem?_cons_zero, Option.some.injEq] at hk hk2
        exact ⟨st, by rw [← hk, ← hk2]⟩
      | succ k2 =>
        simp only [List.getElem?_cons_succ] at hk hk2
        exact ih (stepState handler s st) k2 trk sk hk hk2

/-- A cycle in a run's trace whose fetch failed dispatched nothing. -/
theorem runLoop_failed_empty (handler : Update → Except String Unit)
    (stimuli : List CycleStimulus) (st : LongPollingRunner) :
    ∀ tr ∈ (runLoop handler stimuli st).trace,
      tr.fetchFailed = true → tr.dispatched = [] := by
  induction stimuli generalizing st with
  | nil => intro tr htr; simp [runLoop] at htr
  | cons s rest ih =>
    intro tr htr hff
    cases hs : st.is_stopped with
    | true =>
      rw [runLoop_stopped handler _ st hs] at htr
      simp at htr
    | false =>
      rw [runLoop_cons handler s rest st hs] at htr
      rcases List.mem_cons.mp htr with rfl | htr2
      · exact loopCycle_failed_empty handler s.transport st hff
      · exact ih (stepState handler s st) tr htr2 hff

/-- Once a stimulus delivers `stop()`, the run executes exactly the cycles
up to and including that one, then observes the flag and returns. -/
theorem runLoop_stop_first (handler : Update → Except String Unit)
    (stimuli : List CycleStimulus) (st : LongPollingRunner)
    (hns : st.is_stopped = false) :
    ∀ (k : Nat) (sk : CycleStimulus), stimuli[k]? = some sk →
      sk.stopDuring = true →
      (∀ (j : Nat) (sj : CycleStimulus), j < k → stimuli[j]? = some sj →
        sj.stopDuring = false) →
      (runLoop handler stimuli st).trace.length = k + 1
      ∧ (runLoop handler stimuli st).observedStop = true
      ∧ (runLoop handler stimuli st).final.is_stopped = true := by
  induction stimuli generalizing st with
  | nil => intro k sk hk; simp at hk
  | cons s rest ih =>
    intro k sk hk hstop hfirst
    rw [runLoop_cons handler s rest st hns]
    cases k with
    | zero =>
      simp only [List.getElem?_cons_zero, Option.some.injEq] at hk
      have hsd : s.stopDuring = true := by rw [hk]; exact hstop
      have hstopped : (stepState handler s st).is_stopped = true := by
        simp [stepState_is_stopped, hsd]
      rw [runLoop_stopped handler rest _ hstopped]
      exact ⟨by simp, rfl, hstopped⟩
    | succ k2 =>
      have hsd : s.stopDuring = false :=
        hfirst 0 s (Nat.succ_pos k2) (by simp)
      have hns2 : (stepState handler s st).is_stopped = false := by
        simp [stepState_is_stopped, hsd, hns]
      simp only [List.getElem?_cons_succ] at hk
      obtain ⟨hlen, hobs, hfin⟩ := ih (stepState handler s st) hns2 k2 sk hk hstop
        (fun j sj hj hjget => hfirst (j + 1) sj (by omega) (by simpa using hjget))
      exact ⟨by simp [hlen], hobs, hfin⟩

/-! ## Order and maximum facts about dispatched batches -/

/-- In a strictly ascending list the last element bounds every member. -/
theorem pairwise_lt_le_getLast {l : List Int} (hp : l.Pairwise (· < ·)) :
    ∀ x ∈ l, ∀ N, l.getLast? = some N → x ≤ N := by
  induction l with
  | nil => intro x hx; cases hx
  | cons a rest ih =>
    intro x hx N hN
    obtain ⟨ha, hrest⟩ := List.pairwise_cons.mp hp
    cases rest with
    | nil =>
      simp at hN hx
      omega
    | cons b bs =>
      rw [List.getLast?_cons_cons] at hN
      rcases List.mem_cons.mp hx with rfl | hx2
      · have hb : b ≤ N := ih hrest b (List.mem_cons_self b bs) N hN
        have hab : x < b := ha b (List.mem_cons_self b bs)
        omega
      · exact ih hrest x hx2 N hN

/-- The precondition of the cursor invariant, on one executed cycle: the
batch arrived in strictly ascending id order and contained no id below
the offset the fetch requested. -/
def FreshAscending (tr : CycleTrace) : Prop :=
  tr.ids.Pairwise (· < ·)
  ∧ ∀ r ∈ tr.dispatched, tr.request.offset ≤ r.update.id

/-- Under the freshness half of the precondition a cycle never moves its
offset backwards. -/
theorem post_ge_request {tr : CycleTrace} (h : FreshAscending tr) :
    tr.request.offset ≤ tr.postOffset := by
  unfold CycleTrace.postOffset
  cases hL : tr.dispatched.getLast? with
  | none => exact Int.le_refl _
  | some r =>
    have hm : r ∈ tr.dispatched := List.mem_of_getLast?_eq_some hL
    have := h.2 r hm
    show tr.request.offset ≤ r.update.id + 1
    omega

/-- Under the ascending half of the precondition every id the cycle
iterated lies below the post-offset. -/
theorem ids_lt_post {tr : CycleTrace} (h : FreshAscending tr) :
    ∀ i ∈ tr.ids, i < tr.postOffset := by
  intro i hi
  unfold CycleTrace.postOffset
  cases hL : tr.dispatched.getLast? with
  | none =>
    rw [List.getLast?_eq_none_iff] at hL
    simp [CycleTrace.ids, hL] at hi
  | some r =>
    have hN : tr.ids.getLast? = some r.update.id := by
      unfold CycleTrace.ids
      rw [List.getLast?_map, hL]
      rfl
    have := pairwise_lt_le_getLast h.1 i hi r.update.id hN
    show i < r.update.id + 1
    omega

/-- An empty batch leaves the post-offset at the requested offset. -/
theorem post_of_empty {tr : CycleTrace} (h : tr.dispatched = []) :
    tr.postOffset = tr.request.offset := by
  unfold CycleTrace.postOffset
  rw [h]
  rfl

/-- A nonempty batch sets the post-offset to the last dispatched event's
id plus one. -/
theorem post_of_getLast {tr : CycleTrace} {r : DispatchRecord}
    (h : tr.dispatched.getLast? = some r) :
    tr.postOffset = r.update.id + 1 := by
  unfold CycleTrace.postOffset
  rw [h]

/-- The cursor invariant, proved along the whole run: under the
batch precondition the final offset never decreases, strictly exceeds
every iterated id, and (once anything was iterated) is exactly one more
than one of the iterated ids. -/
theorem runLoop_max (handler : Update → Except String Unit)
    (stimuli : List CycleStimulus) (st : LongPollingRunner)
    (hpre : ∀ tr ∈ (runLoop handler stimuli st).trace, FreshAscending tr) :
    st.offset ≤ (runLoop handler stimuli st).final.offset
    ∧ (∀ i ∈ traceIds (runLoop handler stimuli st).trace,
        i < (runLoop handler stimuli st).final.offset)
    ∧ (traceIds (runLoop handler stimuli st).trace = [] →
        (runLoop handler stimuli st).final.offset = st.offset)
    ∧ (traceIds (runLoop handler stimuli st).trace ≠ [] →
        ∃ N ∈ traceIds (runLoop handler stimuli st).trace,
          (runLoop handler stimuli st).final.offset = N + 1) := by
  induction stimuli generalizing st with
  | nil =>
    refine ⟨Int.le_refl _, ?_, fun _ => rfl, ?_⟩
    · intro i hi; simp [runLoop, traceIds] at hi
    · intro hne; simp [runLoop, traceIds] at hne
  | cons s rest ih =>
    cases hs : st.is_stopped with
    | true =>
      rw [runLoop_stopped handler _ st hs] at hpre ⊢
      refine ⟨Int.le_refl _, ?_, fun _ => rfl, ?_⟩
      · intro i hi; simp [traceIds] at hi
      · intro hne; simp [traceIds] at hne
    | false =>
      rw [runLoop_cons handler s rest st hs] at hpre ⊢
      have hhead : FreshAscending (loopCycle handler s.transport st).2 :=
        hpre _ (List.mem_cons_self _ _)
      have hptail : ∀ tr ∈ (runLoop handler rest (stepState handler s st)).trace,
          FreshAscending tr :=
        fun tr htr => hpre tr (List.mem_cons_of_mem _ htr)
      obtain ⟨ih1, ih2, ih3, ih4⟩ := ih (stepState handler s st) hptail
      have hreq : (loopCycle handler s.transport st).2.request.offset = st.offset := by
        rw [loopCycle_request]
      have hs2off : (stepState handler s st).offset =
          (loopCycle handler s.transport st).2.postOffset := by
        rw [stepState_offset, loopCycle_offset_eq_post]
      have hmono : st.offset ≤ (stepState handler s st).offset := by
        rw [hs2off, ← hreq]
        exact post_ge_request hhead
      have hA : ∀ i ∈ (loopCycle handler s.transport st).2.ids,
          i < (stepState handler s st).offset := by
        rw [hs2off]
        exact ids_lt_post hhead
      constructor
      · exact hmono.trans ih1
      constructor
      · intro i hi
        show i < (runLoop handler rest (stepState handler s st)).final.offset
        rcases List.mem_append.mp (by simpa [traceIds] using hi) with hiA | hiT
        · exact Int.lt_of_lt_of_le (hA i hiA) ih1
        · exact ih2 i hiT
      constructor
      · intro hnil
        show (runLoop handler rest (stepState handler s st)).final.offset = st.offset
        have hsplit := List.append_eq_nil.mp (by simpa [traceIds] using hnil)
        have hempty : (loopCycle handler s.transport st).2.dispatched = [] :=
          List.map_eq_nil_iff.mp hsplit.1
        rw [ih3 hsplit.2, hs2off, post_of_empty hempty, hreq]
      · intro hne
        show ∃ N ∈ traceIds ((loopCycle handler s.transport st).2 ::
            (runLoop handler rest (stepState handler s st)).trace),
          (runLoop handler rest (stepState handler s st)).final.offset = N + 1
        cases htid : traceIds (runLoop handler rest (stepState handler s st)).trace with
        | cons x xs =>
          obtain ⟨N, hN, hfin⟩ := ih4 (by rw [htid]; simp)
          refine ⟨N, ?_, hfin⟩
          simp only [traceIds, List.mem_append]
          right
          exact hN
        | nil =>
          have hAne : (loopCycle handler s.transport st).2.ids ≠ [] := by
            intro habs
            apply hne
            simp [traceIds, habs, htid]
          have hLne : (loopCycle handler s.transport st).2.dispatched ≠ [] := by
            intro habs
            exact hAne (by simp [CycleTrace.ids, habs])
          obtain ⟨r, hr⟩ := Option.isSome_iff_exists.mp
            (by rwa [List.getLast?_isSome] :
              ((loopCycle handler s.transport st).2.dispatched.getLast?).isSome)
          refine ⟨r.update.id, ?_, ?_⟩
          · simp only [traceIds, List.mem_append]
            left
            exact List.mem_map_of_mem _ (List.mem_of_getLast?_eq_some hr)
          · rw [ih3 htid, hs2off, post_of_getLast hr]

/-! ## Per-type optional-field presence facts

For every decoded response object, each optional field is recovered from
the input exactly by key presence: `.get`-style raw fields hold the
looked-up value itself, `get_optional`-style fields are `some` exactly
when the key is present, and the four `get(key, False)` service flags
hold the lookup result with a `False` default. -/

theorem decodeUser_opt {j : Json} {u : User} (h : decodeUser j = .ok u) :
    u.last_name = pyOptional (j.getField "last_name") ∧ u.username = pyOptional (j.getField "username") := by
  simp only [decodeUser, except_bind_ok, except_pure_ok] at h
  obtain ⟨id, hid, fn, hfn, ln, hln, un, hun, hu⟩ := h
  subst hu
  exact ⟨getRaw_ok hln, getRaw_ok hun⟩

theorem decodeChat_opt {j : Json} {c : Chat} (h : decodeChat j = .ok c) :
    c.title = pyOptional (j.getField "title") ∧ c.username = pyOptional (j.getField "username")
    ∧ c.first_name = pyOptional (j.getField "first_name") ∧ c.last_name = pyOptional (j.getField "last_name") := by
  simp only [decodeChat, except_bind_ok, except_pure_ok] at h
  obtain ⟨id, hid, tr, htr, tv, htv, tt, htt, un, hun, fn, hfn, ln, hln, hc⟩ := h
  subst hc
  exact ⟨getRaw_ok htt, getRaw_ok hun, getRaw_ok hfn, getRaw_ok hln⟩

theorem decodeMessageEntity_opt {j : Json} {e : MessageEntity}
    (h : decodeMessageEntity j = .ok e) :
    e.url = pyOptional (j.getField "url") ∧ e.user.isSome = (j.getField "user").isSome := by
  simp only [decodeMessageEntity, except_bind_ok, except_pure_ok] at h
  obtain ⟨tr, htr, tv, htv, off, hoff, len, hlen, url, hurl, user, huser, he⟩ := h
  subst he
  exact ⟨getRaw_ok hurl, get_optional_isSome huser⟩

theorem decodeAudio_opt {j : Json} {a : Audio} (h : decodeAudio j = .ok a) :
    a.performer = pyOptional (j.getField "performer") ∧ a.title = pyOptional (j.getField "title")
    ∧ a.mime_type = pyOptional (j.getField "mime_type") ∧ a.file_size = pyOptional (j.getField "file_size") := by
  simp only [decodeAudio, except_bind_ok, except_pure_ok] at h
  obtain ⟨fid, hfid, dr, hdr, dv, hdv, pf, hpf, tt, htt, mt, hmt, fs, hfs, ha⟩ := h
  subst ha
  exact ⟨getRaw_ok hpf, getRaw_ok htt, getRaw_ok hmt, getRaw_ok hfs⟩

theorem decodePhotoSize_opt {j : Json} {p : PhotoSize}
    (h : decodePhotoSize j = .ok p) :
    p.file_size = pyOptional (j.getField "file_size") := by
  simp only [decodePhotoSize, except_bind_ok, except_pure_ok] at h
  obtain ⟨fid, hfid, w, hw, ht, hht, fs, hfs, hp⟩ := h
  subst hp
  exact getRaw_ok hfs

theorem decodeDocument_opt {j : Json} {d : Document}
    (h : decodeDocument j = .ok d) :
    d.thumbnail.isSome = (j.getField "thumb").isSome
    ∧ d.file_name = pyOptional (j.getField "file_name")
    ∧ d.mime_type = pyOptional (j.getField "mime_type")
    ∧ d.file_size = pyOptional (j.getField "file_size") := by
  simp only [decodeDocument, except_bind_ok, except_pure_ok] at h
  obtain ⟨fid, hfid, th, hth, fn, hfn, mt, hmt, fs, hfs, hd⟩ := h
  subst hd
  exact ⟨get_optional_isSome hth, getRaw_ok hfn, getRaw_ok hmt, getRaw_ok hfs⟩

theorem decodeSticker_opt {j : Json} {s : Sticker} (h : decodeSticker j = .ok s) :
    s.thumbnail.isSome = (j.getField "thumb").isSome
    ∧ s.emoji = pyOptional (j.getField "emoji") ∧ s.file_size = pyOptional (j.getField "file_size") := by
  simp only [decodeSticker, except_bind_ok, except_pure_ok] at h
  obtain ⟨fid, hfid, w, hw, hh, hhh, th, hth, em, hem, fs, hfs, hs⟩ := h
  subst hs
  exact ⟨get_optional_isSome hth, getRaw_ok hem, getRaw_ok hfs⟩

theorem decodeVideo_opt {j : Json} {v : Video} (h : decodeVideo j = .ok v) :
    v.thumbnail.isSome = (j.getField "thumb").isSome
    ∧ v.mime_type = pyOptional (j.getField "mime_type") ∧ v.file_size = pyOptional (j.getField "file_size") := by
  simp only [decodeVideo, except_bind_ok, except_pure_ok] at h
  obtain ⟨fid, hfid, w, hw, hh, hhh, dr, hdr, dv, hdv, th, hth, mt, hmt, fs, hfs, hv⟩ := h
  subst hv
  exact ⟨get_optional_isSome hth, getRaw_ok hmt, getRaw_ok hfs⟩

theorem decodeVoice_opt {j : Json} {v : Voice} (h : decodeVoice j = .ok v) :
    v.mime_type = pyOptional (j.getField "mime_type") ∧ v.file_size = pyOptional (j.getField "file_size") := by
  simp only [decodeVoice, except_bind_ok, except_pure_ok] at h
  obtain ⟨fid, hfid, dr, hdr, dv, hdv, mt, hmt, fs, hfs, hv⟩ := h
  subst hv
  exact ⟨getRaw_ok hmt, getRaw_ok hfs⟩

theorem decodeContact_opt {j : Json} {c : Contact} (h : decodeContact j = .ok c) :
    c.last_name = pyOptional (j.getField "last_name") ∧ c.user_id = pyOptional (j.getField "user_id") := by
  simp only [decodeContact, except_bind_ok, except_pure_ok] at h
  obtain ⟨pn, hpn, fn, hfn, ln, hln, ui, hui, hc⟩ := h
  subst hc
  exact ⟨getRaw_ok hln, getRaw_ok hui⟩

theorem decodeVenue_opt {j : Json} {v : Venue} (h : decodeVenue j = .ok v) :
    v.foursquare_id = pyOptional (j.getField "foursquare_id") := by
  simp only [decodeVenue, except_bind_ok, except_pure_ok] at h
  obtain ⟨lr, hlr, loc, hloc, tt, htt, ad, had, fq, hfq, hv⟩ := h
  subst hv
  exact getRaw_ok hfq

theorem decodeInlineQuery_opt {j : Json} {q : InlineQuery}
    (h : decodeInlineQuery j = .ok q) :
    q.location.isSome = (j.getField "location").isSome := by
  simp only [decodeInlineQuery, except_bind_ok, except_pure_ok] at h
  obtain ⟨id, hid, fr, hfr, fv, hfv, loc, hloc, qu, hqu, off, hoff, hq⟩ := h
  subst hq
  exact get_optional_isSome hloc

theorem decodeChosenInlineResult_opt {j : Json} {r : ChosenInlineResult}
    (h : decodeChosenInlineResult j = .ok r) :
    r.location.isSome = (j.getField "location").isSome
    ∧ r.inline_message_id = pyOptional (j.getField "inline_message_id") := by
  simp only [decodeChosenInlineResult, except_bind_ok, except_pure_ok] at h
  obtain ⟨rid, hrid, fr, hfr, fv, hfv, loc, hloc, imi, himi, qu, hqu, hr⟩ := h
  subst hr
  exact ⟨get_optional_isSome hloc, getRaw_ok himi⟩

theorem decodeCallbackQuery_opt {j : Json} {q : CallbackQuery}
    (h : decodeCallbackQuery j = .ok q) :
    q.message.isSome = (j.getField "message").isSome
    ∧ q.inline_message_id = pyOptional (j.getField "inline_message_id") := by
  simp only [decodeCallbackQuery, except_bind_ok, except_pure_ok] at h
  obtain ⟨id, hid, fr, hfr, fv, hfv, msg, hmsg, imi, himi, dt, hdt, hq⟩ := h
  subst hq
  exact ⟨get_optional_isSome hmsg, getRaw_ok himi⟩

theorem decodeMessageF_opt {fuel : Nat} {j : Json} {m : Message}
    (h : decodeMessageF fuel j = .ok m) :
    m.data.from_.isSome = (j.getField "from").isSome
    ∧ m.data.forward_from.isSome = (j.getField "forward_from").isSome
    ∧ m.data.forward_from_chat.isSome = (j.getField "forward_from_chat").isSome
    ∧ m.data.forward_date.isSome = (j.getField "forward_date").isSome
    ∧ m.reply_to_message.isSome = (j.getField "reply_to_message").isSome
    ∧ m.data.edit_date.isSome = (j.getField "edit_date").isSome
    ∧ m.data.text = pyOptional (j.getField "text")
    ∧ m.data.entities.isSome = (j.getField "entities").isSome
    ∧ m.data.audio.isSome = (j.getField "audio").isSome
    ∧ m.data.document.isSome = (j.getField "document").isSome
    ∧ m.data.photo.isSome = (j.getField "photo").isSome
    ∧ m.data.sticker.isSome = (j.getField "sticker").isSome
    ∧ m.data.video.isSome = (j.getField "video").isSome
    ∧ m.data.voice.isSome = (j.getField "voice").isSome
    ∧ m.data.caption = pyOptional (j.getField "caption")
    ∧ m.data.contact.isSome = (j.getField "contact").isSome
    ∧ m.data.location.isSome = (j.getField "location").isSome
    ∧ m.data.venue.isSome = (j.getField "venue").isSome
    ∧ m.data.new_chat_member.isSome = (j.getField "new_chat_member").isSome
    ∧ m.data.left_chat_member.isSome = (j.getField "left_chat_member").isSome
    ∧ m.data.new_chat_title = pyOptional (j.getField "new_chat_title")
    ∧ m.data.new_chat_photo.isSome = (j.getField "new_chat_photo").isSome
    ∧ m.data.delete_chat_photo = (j.getField "delete_chat_photo").getD (Json.bool false)
    ∧ m.data.group_chat_created = (j.getField "group_chat_created").getD (Json.bool false)
    ∧ m.data.supergroup_chat_created =
        (j.getField "supergroup_chat_created").getD (Json.bool false)
    ∧ m.data.channel_chat_created =
        (j.getField "channel_chat_created").getD (Json.bool false)
    ∧ m.data.migrate_to_chat_id = pyOptional (j.getField "migrate_to_chat_id")
    ∧ m.data.migrate_from_chat_id = pyOptional (j.getField "migrate_from_chat_id")
    ∧ m.pinned_message.isSome = (j.getField "pinned_message").isSome := by
  cases fuel with
  | zero => simp [decodeMessageF] at h
  | succ fuel =>
    simp only [decodeMessageF, except_bind_ok, except_pure_ok] at h
    obtain ⟨idv, hid, fromv, hfrom, dr, hdr, datev, hdatev, cr, hcr, chatv, hchatv,
      ffv, hff, ffcv, hffc, fdv, hfd, rtmv, hrtm, edv, hed, textv, htext,
      entv, hent, audiov, haudio, docv, hdoc, photov, hphoto, stickv, hstick,
      vidv, hvid, voicev, hvoice, capv, hcap, conv, hcon, locv, hloc,
      venv, hven, ncmv, hncm, lcmv, hlcm, nctv, hnct, ncpv, hncp,
      dcpv, hdcp, gccv, hgcc, sgccv, hsgcc, cccv, hccc, mtcv, hmtc,
      mfcv, hmfc, pmv, hpm, hm⟩ := h
    subst hm
    refine ⟨get_optional_isSome hfrom, get_optional_isSome hff,
      get_optional_isSome hffc, get_optional_isSome hfd,
      get_optional_isSome hrtm, get_optional_isSome hed,
      getRaw_ok htext, get_optional_array_isSome hent,
      get_optional_isSome haudio, get_optional_isSome hdoc,
      get_optional_array_isSome hphoto, get_optional_isSome hstick,
      get_optional_isSome hvid, get_optional_isSome hvoice,
      getRaw_ok hcap, get_optional_isSome hcon, get_optional_isSome hloc,
      get_optional_isSome hven, get_optional_isSome hncm,
      get_optional_isSome hlcm, getRaw_ok hnct,
      get_optional_array_isSome hncp, ?_, ?_, ?_, ?_,
      getRaw_ok hmtc, getRaw_ok hmfc, get_optional_isSome hpm⟩
    · show dcpv.getD (Json.bool false) = _
      rw [getOpt_ok hdcp]
    · show gccv.getD (Json.bool false) = _
      rw [getOpt_ok hgcc]
    · show sgccv.getD (Json.bool false) = _
      rw [getOpt_ok hsgcc]
    · show cccv.getD (Json.bool false) = _
      rw [getOpt_ok hccc]

theorem decodeUpdate_opt {j : Json} {u : Update} (h : decodeUpdate j = .ok u) :
    u.message.isSome = (j.getField "message").isSome
    ∧ u.edited_message.isSome = (j.getField "edited_message").isSome
    ∧ u.channel_post.isSome = (j.getField "channel_post").isSome
    ∧ u.edited_channel_post.isSome = (j.getField "edited_channel_post").isSome
    ∧ u.inline_query.isSome = (j.getField "inline_query").isSome
    ∧ u.chosen_inline_result.isSome = (j.getField "chosen_inline_result").isSome
    ∧ u.callback_query.isSome = (j.getField "callback_query").isSome := by
  simp only [decodeUpdate, except_bind_ok, except_pure_ok] at h
  obtain ⟨ir, hir, idv, hidv, msg, hmsg, em, hem, cp, hcp, ecp, hecp,
    iq, hiq, cir, hcir, cq, hcq, hu⟩ := h
  subst hu
  exact ⟨get_optional_isSome hmsg, get_optional_isSome hem,
    get_optional_isSome hcp, get_optional_isSome hecp,
    get_optional_isSome hiq, get_optional_isSome hcir,
    get_optional_isSome hcq⟩

/-! ## The spec's stubbed scenario

Transport is stubbed to return, on the first call, a batch of events
10 and 11 (the handler raises on 11); on the second call, an empty batch;
`stop()` is requested before the third call. -/

/-- First stubbed response: `{"ok": true, "result": [{"update_id": 10},
{"update_id": 11}]}`. -/
def scenarioBatch1 : Json :=
  .obj [("ok", .bool true),
    ("result", .arr [.obj [("update_id", .num 10)], .obj [("update_id", .num 11)]])]

/-- Second stubbed response: `{"ok": true, "result": []}`. -/
def scenarioBatch2 : Json :=
  .obj [("ok", .bool true), ("result", .arr [])]

/-- The handler that raises exactly on event 11. -/
def scenarioHandler : Update → Except String Unit :=
  fun u => if u.id = 11 then .error "boom" else .ok ()

/-- The stubbed schedule: two fetches, `stop()` during the second cycle. -/
def scenarioStimuli : List CycleStimulus :=
  [⟨.response scenarioBatch1, false⟩, ⟨.response scenarioBatch2, true⟩]

/-- The decoded event with cursor id 10. -/
def scenarioU10 : Update := ⟨10, none, none, none, none, none, none, none⟩

/-- The decoded event with cursor id 11. -/
def scenarioU11 : Update := ⟨11, none, none, none, none, none, none, none⟩

/-- The observable first cycle: fetch at offset 0, both events dispatched,
the handler raised on event 11. -/
def scenarioTrace0 : CycleTrace :=
  ⟨⟨0, 100, 5⟩, false, [⟨scenarioU10, false⟩, ⟨scenarioU11, true⟩]⟩

/-- The observable second cycle: fetch at offset 12, empty batch. -/
def scenarioTrace1 : CycleTrace := ⟨⟨12, 100, 5⟩, false, []⟩

/-! ## The claims -/

/-- Claim C5: `make_request` classifies the JSON envelope: when the `ok`
field is `true` it returns exactly the envelope's `result` value
unmodified, and when `ok` is `false` it raises a `TelegramException`
carrying the envelope's `description` verbatim. -/
theorem c5_make_request_classification :
    ∀ (payload : Json) (r d : Json),
      (payload.getField "ok" = some (Json.bool true) →
        payload.getField "result" = some r →
        make_request payload = .ok r)
      ∧ (payload.getField "ok" = some (Json.bool false) →
        payload.getField "description" = some d →
        make_request payload = .error (.telegramException d)) := by
  intro payload r d
  constructor
  · intro hok hres
    simp [make_request, hok, hres, Json.truthy]
  · intro hok hdesc
    simp [make_request, hok, hdesc, Json.truthy]

/-- Witness for C5 at the spec's synthetic envelopes. -/
theorem c5_make_request_classification_witness :
    make_request (Json.obj [("ok", .bool true), ("result", .num 42)]) =
      .ok (.num 42)
    ∧ make_request (Json.obj [("ok", .bool false), ("description", .str "boom")]) =
      .error (.telegramException (.str "boom")) :=
  ⟨(c5_make_request_classification
      (Json.obj [("ok", .bool true), ("result", .num 42)]) (.num 42) (.str "boom")).1
      (by rfl) (by rfl),
   (c5_make_request_classification
      (Json.obj [("ok", .bool false), ("description", .str "boom")]) (.num 42) (.str "boom")).2
      (by rfl) (by rfl)⟩

/-- Claim C6: if any single event object of a fetched batch fails to
decode, the error is raised inside `get_updates` before the polling loop
sees any event of the batch, and the loop treats it as a fetch failure:
nothing is dispatched and the runner state (offset included) is exactly
what it was, so the whole batch is re-fetched next cycle. -/
theorem c6_decode_failure_fails_fetch :
    ∀ (payload : Json) (items : List Json) (u : Json) (e : DecodeError),
      make_request payload = .ok (.arr items) →
      u ∈ items →
      decodeUpdate u = .error e →
      (∃ e2, get_updates (.response payload) = .error (.decode e2))
      ∧ (∀ (handler : Update → Except String Unit) (st : LongPollingRunner),
          loopCycle handler (.response payload) st =
            (st, ⟨⟨st.offset, st.limit, st.timeout⟩, true, []⟩)) := by
  intro payload items u e hmr hmem hdec
  obtain ⟨e2, he2⟩ := mapMExcept_error_of_mem hmem hdec
  have hget : get_updates (.response payload) = .error (.decode e2) := by
    simp [get_updates, hmr, he2]
  exact ⟨⟨e2, hget⟩, fun handler st => loopCycle_error handler st hget⟩

/-- Witness for C6: a batch whose only element misses `update_id`. -/
theorem c6_decode_failure_fails_fetch_witness :
    make_request (Json.obj [("ok", .bool true), ("result", .arr [Json.obj []])]) =
      .ok (.arr [Json.obj []])
    ∧ decodeUpdate (Json.obj []) = .error (.keyError "update_id")
    ∧ (∃ e2, get_updates
        (.response (Json.obj [("ok", .bool true), ("result", .arr [Json.obj []])])) =
          .error (.decode e2))
    ∧ loopCycle scenarioHandler
        (.response (Json.obj [("ok", .bool true), ("result", .arr [Json.obj []])]))
        (LongPollingRunner.init 100 5) =
        (LongPollingRunner.init 100 5, ⟨⟨0, 100, 5⟩, true, []⟩) := by
  have h := c6_decode_failure_fails_fetch
    (Json.obj [("ok", .bool true), ("result", .arr [Json.obj []])])
    [Json.obj []] (Json.obj []) (.keyError "update_id")
    (by rfl) (by simp) (by rfl)
  exact ⟨by rfl, by rfl, h.1, h.2 scenarioHandler (LongPollingRunner.init 100 5)⟩

/-- Claim C7: the spec's concrete scenario.  The handler is invoked with
events 10 and 11 in that order (the handler's error on 11 is recorded,
not propagated), the offset is 12 after the first cycle, exactly one more
fetch is performed — at offset 12 — and the run then observes the stop
and terminates without aborting. -/
theorem c7_concrete_scenario :
    run false scenarioHandler scenarioStimuli (LongPollingRunner.init 100 5) =
      .ok ⟨⟨100, 5, 12, true⟩, [scenarioTrace0, scenarioTrace1], true⟩ := by
  rfl

/-- Claim C10: a newly constructed runner has offset 0 and the stop flag
clear, the very first fetch is issued with offset 0, the first cycle is
entered whenever a cycle's stimulus exists, and a runner stopped before
`run()` performs no fetch at all. -/
theorem c10_initial_state :
    ∀ (L T : Int),
      (LongPollingRunner.init L T).offset = 0
      ∧ (LongPollingRunner.init L T).is_stopped = false
      ∧ (∀ (handler : Update → Except String Unit) (s : CycleStimulus)
          (rest : List CycleStimulus),
          ((runLoop handler (s :: rest) (LongPollingRunner.init L T)).trace[0]?).map
            (fun tr => tr.request.offset) = some 0)
      ∧ (∀ (handler : Update → Except String Unit) (stimuli : List CycleStimulus),
          runLoop handler stimuli ((LongPollingRunner.init L T).stop) =
            ⟨(LongPollingRunner.init L T).stop, [], true⟩) := by
  intro L T
  refine ⟨rfl, rfl, ?_, ?_⟩
  · intro handler s rest
    rw [runLoop_cons handler s rest _ rfl]
    simp [loopCycle_request handler s.transport (LongPollingRunner.init L T)]
    rfl
  · intro handler stimuli
    exact runLoop_stopped handler stimuli _ rfl

/-- Claim C1: after the loop processes an event with cursor id `N` — the
handler having returned or raised — the loop's offset is `N + 1` (first
conjunct: processing any prefix ending in `u` leaves offset `u.id + 1`),
and the next fetch, when one happens, is issued with offset `N + 1`
(second conjunct: any later cycle in the trace requests the id of the
previous cycle's last processed event plus one). -/
theorem c1_offset_advances_after_event :
    (∀ (handler : Update → Except String Unit) (offset : Int)
        (pre : List Update) (u : Update),
      (dispatchAll handler offset (pre ++ [u])).1 = u.id + 1)
    ∧ (∀ (handler : Update → Except String Unit) (stimuli : List CycleStimulus)
        (st : LongPollingRunner) (k : Nat) (trk trk1 : CycleTrace)
        (r : DispatchRecord),
      (runLoop handler stimuli st).trace[k]? = some trk →
      (runLoop handler stimuli st).trace[k + 1]? = some trk1 →
      trk.dispatched.getLast? = some r →
      trk1.request.offset = r.update.id + 1) := by
  constructor
  · intro handler offset pre u
    rw [dispatchAll_offset, List.getLast?_concat]
  · intro handler stimuli st k trk trk1 r h1 h2 hlast
    rw [runLoop_adjacent handler stimuli st k trk trk1 h1 h2, post_of_getLast hlast]

/-- Witness for C1 on the stubbed scenario: after event 11 (on which the
handler raised) the offset is 12 and the next fetch requests 12. -/
theorem c1_offset_advances_after_event_witness :
    (dispatchAll scenarioHandler 0 ([scenarioU10] ++ [scenarioU11])).1 =
      scenarioU11.id + 1
    ∧ (runLoop scenarioHandler scenarioStimuli
        (LongPollingRunner.init 100 5)).trace[0]? = some scenarioTrace0
    ∧ (runLoop scenarioHandler scenarioStimuli
        (LongPollingRunner.init 100 5)).trace[0 + 1]? = some scenarioTrace1
    ∧ scenarioTrace0.dispatched.getLast? =
        some ⟨scenarioU11, true⟩
    ∧ scenarioTrace1.request.offset =
        (⟨scenarioU11, true⟩ : DispatchRecord).update.id + 1 :=
  ⟨c1_offset_advances_after_event.1 scenarioHandler 0 [scenarioU10] scenarioU11,
   by rfl, by rfl, by rfl,
   c1_offset_advances_after_event.2 scenarioHandler scenarioStimuli
     (LongPollingRunner.init 100 5) 0 scenarioTrace0 scenarioTrace1
     ⟨scenarioU11, true⟩ (by rfl) (by rfl) (by rfl)⟩

/-- Claim C2: when the fetch raises (network error or API error), the
cycle returns with the runner state exactly as before — offset included —
nothing dispatched, and the next cycle (when one happens) issues a fetch
with the identical offset. -/
theorem c2_fetch_failure_leaves_offset :
    (∀ (handler : Update → Except String Unit) (tr : TransportResult)
        (st : LongPollingRunner) (e : FetchError),
      get_updates tr = .error e →
      loopCycle handler tr st =
        (st, ⟨⟨st.offset, st.limit, st.timeout⟩, true, []⟩))
    ∧ (∀ (handler : Update → Except String Unit) (stimuli : List CycleStimulus)
        (st : LongPollingRunner) (k : Nat) (trk trk1 : CycleTrace),
      (runLoop handler stimuli st).trace[k]? = some trk →
      (runLoop handler stimuli st).trace[k + 1]? = some trk1 →
      trk.fetchFailed = true →
      trk.dispatched = [] ∧ trk1.request.offset = trk.request.offset) := by
  constructor
  · intro handler tr st e h
    exact loopCycle_error handler st h
  · intro handler stimuli st k trk trk1 h1 h2 hf
    have hmem : trk ∈ (runLoop handler stimuli st).trace := List.getElem?_mem h1
    have hde : trk.dispatched = [] :=
      runLoop_failed_empty handler stimuli st trk hmem hf
    refine ⟨hde, ?_⟩
    rw [runLoop_adjacent handler stimuli st k trk trk1 h1 h2, post_of_empty hde]

/-- Witness for C2: a network error leaves the freshly initialised runner
untouched, and in a run whose first fetch fails the second fetch repeats
offset 0. -/
theorem c2_fetch_failure_leaves_offset_witness :
    get_updates .netError = .error .network
    ∧ loopCycle scenarioHandler .netError (LongPollingRunner.init 100 5) =
        (LongPollingRunner.init 100 5, ⟨⟨0, 100, 5⟩, true, []⟩)
    ∧ (runLoop scenarioHandler
        [⟨.netError, false⟩, ⟨.response scenarioBatch2, true⟩]
        (LongPollingRunner.init 100 5)).trace[0]? =
        some ⟨⟨0, 100, 5⟩, true, []⟩
    ∧ (runLoop scenarioHandler
        [⟨.netError, false⟩, ⟨.response scenarioBatch2, true⟩]
        (LongPollingRunner.init 100 5)).trace[0 + 1]? =
        some ⟨⟨0, 100, 5⟩, false, []⟩
    ∧ (⟨⟨0, 100, 5⟩, true, []⟩ : CycleTrace).dispatched = []
    ∧ (⟨⟨0, 100, 5⟩, false, []⟩ : CycleTrace).request.offset =
        (⟨⟨0, 100, 5⟩, true, []⟩ : CycleTrace).request.offset :=
  ⟨by rfl,
   c2_fetch_failure_leaves_offset.1 scenarioHandler .netError
     (LongPollingRunner.init 100 5) .network (by rfl),
   by rfl, by rfl,
   (c2_fetch_failure_leaves_offset.2 scenarioHandler
     [⟨.netError, false⟩, ⟨.response scenarioBatch2, true⟩]
     (LongPollingRunner.init 100 5) 0 ⟨⟨0, 100, 5⟩, true, []⟩
     ⟨⟨0, 100, 5⟩, false, []⟩ (by rfl) (by rfl) (by rfl)).1,
   (c2_fetch_failure_leaves_offset.2 scenarioHandler
     [⟨.netError, false⟩, ⟨.response scenarioBatch2, true⟩]
     (LongPollingRunner.init 100 5) 0 ⟨⟨0, 100, 5⟩, true, []⟩
     ⟨⟨0, 100, 5⟩, false, []⟩ (by rfl) (by rfl) (by rfl)).2⟩

/-- Claim C3: handler errors are caught inside the loop: every event of a
decoded batch is dispatched in order whatever the handler raises (first
conjunct), the state the cycle leaves — cursor advancement included — is
the same however the handler fails (second conjunct), and `run()` raises
exactly when the unguarded one-time `on_start` hook raises, in which case
it aborts before any fetch (third conjunct). -/
theorem c3_handler_errors_isolated :
    (∀ (handler : Update → Except String Unit) (tr : TransportResult)
        (st : LongPollingRunner) (us : List Update),
      get_updates tr = .ok us →
      ((loopCycle handler tr st).2.dispatched.map (fun r => r.update)) = us)
    ∧ (∀ (h1 h2 : Update → Except String Unit) (tr : TransportResult)
        (st : LongPollingRunner),
      (loopCycle h1 tr st).1 = (loopCycle h2 tr st).1)
    ∧ (∀ (onStartRaises : Bool) (handler : Update → Except String Unit)
        (stimuli : List CycleStimulus) (st : LongPollingRunner),
      (onStartRaises = false →
        run onStartRaises handler stimuli st = .ok (runLoop handler stimuli st))
      ∧ (onStartRaises = true →
        run onStartRaises handler stimuli st = .error "on_start raised")) := by
  refine ⟨?_, ?_, ?_⟩
  · intro handler tr st us h
    rw [loopCycle_ok handler st h]
    exact dispatchAll_updates handler st.offset us
  · intro h1 h2 tr st
    cases hg : get_updates tr with
    | error e => rw [loopCycle_error h1 st hg, loopCycle_error h2 st hg]
    | ok us =>
      rw [loopCycle_ok h1 st hg, loopCycle_ok h2 st hg]
      simp [dispatchAll_handler_independent h1 h2 st.offset us]
  · intro onStartRaises handler stimuli st
    constructor <;> intro h <;> subst h <;> rfl

/-- Witness for C3 on the stubbed scenario: the raising handler and the
never-raising handler dispatch the same events and leave identical
states. -/
theorem c3_handler_errors_isolated_witness :
    get_updates (.response scenarioBatch1) = .ok [scenarioU10, scenarioU11]
    ∧ ((loopCycle scenarioHandler (.response scenarioBatch1)
        (LongPollingRunner.init 100 5)).2.dispatched.map (fun r => r.update)) =
        [scenarioU10, scenarioU11]
    ∧ (loopCycle scenarioHandler (.response scenarioBatch1)
        (LongPollingRunner.init 100 5)).1 =
      (loopCycle (fun _ => .ok ()) (.response scenarioBatch1)
        (LongPollingRunner.init 100 5)).1
    ∧ run false scenarioHandler scenarioStimuli (LongPollingRunner.init 100 5) =
        .ok (runLoop scenarioHandler scenarioStimuli (LongPollingRunner.init 100 5))
    ∧ run true scenarioHandler scenarioStimuli (LongPollingRunner.init 100 5) =
        .error "on_start raised" :=
  ⟨by rfl,
   c3_handler_errors_isolated.1 scenarioHandler (.response scenarioBatch1)
     (LongPollingRunner.init 100 5) [scenarioU10, scenarioU11] (by rfl),
   c3_handler_errors_isolated.2.1 scenarioHandler (fun _ => .ok ())
     (.response scenarioBatch1) (LongPollingRunner.init 100 5),
   (c3_handler_errors_isolated.2.2 false scenarioHandler scenarioStimuli
     (LongPollingRunner.init 100 5)).1 rfl,
   (c3_handler_errors_isolated.2.2 true scenarioHandler scenarioStimuli
     (LongPollingRunner.init 100 5)).2 rfl⟩

/-- Claim C8: a runner whose stop flag is already set performs no fetch
and `run` returns at once (first conjunct); and once `stop()` is called
during cycle `k`, the current cycle still dispatches its whole batch, no
further fetch is ever issued (the trace ends at cycle `k`), and the run
returns having observed the stop at the top of the next cycle (second
conjunct). -/
theorem c8_stop_semantics :
    (∀ (handler : Update → Except String Unit) (stimuli : List CycleStimulus)
        (st : LongPollingRunner),
      st.is_stopped = true → runLoop handler stimuli st = ⟨st, [], true⟩)
    ∧ (∀ (handler : Update → Except String Unit) (stimuli : List CycleStimulus)
        (st : LongPollingRunner) (k : Nat) (sk : CycleStimulus),
      st.is_stopped = false →
      stimuli[k]? = some sk →
      sk.stopDuring = true →
      (∀ (j : Nat) (sj : CycleStimulus), j < k → stimuli[j]? = some sj →
        sj.stopDuring = false) →
      (runLoop handler stimuli st).trace.length = k + 1
      ∧ (runLoop handler stimuli st).observedStop = true
      ∧ (∀ (us : List Update) (trk : CycleTrace),
          get_updates sk.transport = .ok us →
          (runLoop handler stimuli st).trace[k]? = some trk →
          trk.dispatched.map (fun r => r.update) = us)) := by
  constructor
  · intro handler stimuli st hs
    exact runLoop_stopped handler stimuli st hs
  · intro handler stimuli st k sk hns hk hsd hfirst
    obtain ⟨hlen, hobs, _⟩ :=
      runLoop_stop_first handler stimuli st hns k sk hk hsd hfirst
    refine ⟨hlen, hobs, ?_⟩
    intro us trk hus htrk
    obtain ⟨stEnter, hsrc⟩ :=
      runLoop_trace_src handler stimuli st k trk sk htrk hk
    rw [hsrc, loopCycle_ok handler stEnter hus]
    exact dispatchAll_updates handler stEnter.offset us

/-- Witness for C8 on the stubbed scenario: the stop delivered during the
second cycle ends the trace at length 2 with the empty batch fully
dispatched, and a pre-stopped runner runs no cycle. -/
theorem c8_stop_semantics_witness :
    runLoop scenarioHandler scenarioStimuli
      ((LongPollingRunner.init 100 5).stop) =
      ⟨(LongPollingRunner.init 100 5).stop, [], true⟩
    ∧ scenarioStimuli[1]? = some ⟨.response scenarioBatch2, true⟩
    ∧ (runLoop scenarioHandler scenarioStimuli
        (LongPollingRunner.init 100 5)).trace.length = 1 + 1
    ∧ (runLoop scenarioHandler scenarioStimuli
        (LongPollingRunner.init 100 5)).observedStop = true
    ∧ (runLoop scenarioHandler scenarioStimuli
        (LongPollingRunner.init 100 5)).trace[1]? = some scenarioTrace1
    ∧ scenarioTrace1.dispatched.map (fun r => r.update) = [] := by
  have h := c8_stop_semantics.2 scenarioHandler scenarioStimuli
    (LongPollingRunner.init 100 5) 1 ⟨.response scenarioBatch2, true⟩
    (by rfl) (by rfl) (by rfl)
    (by intro j sj hj hjget
        interval_cases j
        · simp [scenarioStimuli] at hjget
          rw [← hjget])
  exact ⟨c8_stop_semantics.1 scenarioHandler scenarioStimuli
      ((LongPollingRunner.init 100 5).stop) (by rfl),
    by rfl, h.1, h.2.1, by rfl,
    h.2.2 [] scenarioTrace1 (by rfl) (by rfl)⟩

/-- Claim C4: under the precondition that every fetched batch arrives in
strictly ascending cursor order and contains only ids at or above the
offset that fetch requested (its cursor exceeds everything already
delivered), the loop's offset is monotonically non-decreasing across the
run; once any event has been iterated the final offset equals the maximum
iterated cursor id plus one; and the offset moves only through the
per-event assignment after an event is handed to the delivery step —
never by a fetch alone (a cycle that dispatched nothing leaves the next
request at the same offset, and a cycle that dispatched events leaves it
at its last event's id plus one). -/
theorem c4_cursor_invariant :
    ∀ (handler : Update → Except String Unit) (stimuli : List CycleStimulus)
      (st : LongPollingRunner),
      (∀ tr ∈ (runLoop handler stimuli st).trace, FreshAscending tr) →
      (∀ (k d : Nat) (trk trkd : CycleTrace),
        (runLoop handler stimuli st).trace[k]? = some trk →
        (runLoop handler stimuli st).trace[k + d]? = some trkd →
        trk.request.offset ≤ trkd.request.offset)
      ∧ st.offset ≤ (runLoop handler stimuli st).final.offset
      ∧ (traceIds (runLoop handler stimuli st).trace ≠ [] →
          ∃ N ∈ traceIds (runLoop handler stimuli st).trace,
            (runLoop handler stimuli st).final.offset = N + 1
            ∧ ∀ M ∈ traceIds (runLoop handler stimuli st).trace, M ≤ N)
      ∧ (∀ (k : Nat) (trk trk1 : CycleTrace),
          (runLoop handler stimuli st).trace[k]? = some trk →
          (runLoop handler stimuli st).trace[k + 1]? = some trk1 →
          trk.dispatched = [] →
          trk1.request.offset = trk.request.offset)
      ∧ (∀ (k : Nat) (trk trk1 : CycleTrace) (r : DispatchRecord),
          (runLoop handler stimuli st).trace[k]? = some trk →
          (runLoop handler stimuli st).trace[k + 1]? = some trk1 →
          trk.dispatched.getLast? = some r →
          trk1.request.offset = r.update.id + 1) := by
  intro handler stimuli st hpre
  obtain ⟨h1, h2, _, h4⟩ := runLoop_max handler stimuli st hpre
  refine ⟨?_, h1, ?_, ?_, ?_⟩
  · intro k d
    induction d with
    | zero =>
      intro trk trkd ha hb
      rw [Nat.add_zero, ha] at hb
      cases hb
      exact Int.le_refl _
    | succ d ih =>
      intro trk trkd ha hb
      have hlt : k + d + 1 < (runLoop handler stimuli st).trace.length :=
        (List.getElem?_eq_some.mp hb).1
      have hltm : k + d < (runLoop handler stimuli st).trace.length := by omega
      have hm : (runLoop handler stimuli st).trace[k + d]? =
          some ((runLoop handler stimuli st).trace[k + d]) :=
        List.getElem?_eq_getElem hltm
      have hstep := runLoop_adjacent handler stimuli st (k + d) _ trkd hm hb
      have hfa : FreshAscending ((runLoop handler stimuli st).trace[k + d]) :=
        hpre _ (List.getElem?_mem hm)
      have hge := post_ge_request hfa
      have hmono := ih trk _ ha hm
      omega
  · intro hne
    obtain ⟨N, hN, hfin⟩ := h4 hne
    refine ⟨N, hN, hfin, fun M hM => ?_⟩
    have := h2 M hM
    omega
  · intro k trk trk1 ha hb hde
    rw [runLoop_adjacent handler stimuli st k trk trk1 ha hb, post_of_empty hde]
  · intro k trk trk1 r ha hb hlast
    rw [runLoop_adjacent handler stimuli st k trk trk1 ha hb, post_of_getLast hlast]

/-- Witness for C4 on the stubbed scenario: its two batches satisfy the
precondition, the requests 0 and 12 are non-decreasing, and the final
offset 12 is the maximum iterated id 11 plus one. -/
theorem c4_cursor_invariant_witness :
    (∀ tr ∈ (runLoop scenarioHandler scenarioStimuli
        (LongPollingRunner.init 100 5)).trace, FreshAscending tr)
    ∧ (LongPollingRunner.init 100 5).offset ≤
        (runLoop scenarioHandler scenarioStimuli
          (LongPollingRunner.init 100 5)).final.offset
    ∧ (∃ N ∈ traceIds (runLoop scenarioHandler scenarioStimuli
          (LongPollingRunner.init 100 5)).trace,
        (runLoop scenarioHandler scenarioStimuli
          (LongPollingRunner.init 100 5)).final.offset = N + 1
        ∧ ∀ M ∈ traceIds (runLoop scenarioHandler scenarioStimuli
            (LongPollingRunner.init 100 5)).trace, M ≤ N) := by
  have hpre : ∀ tr ∈ (runLoop scenarioHandler scenarioStimuli
      (LongPollingRunner.init 100 5)).trace, FreshAscending tr := by
    have htr : (runLoop scenarioHandler scenarioStimuli
        (LongPollingRunner.init 100 5)).trace = [scenarioTrace0, scenarioTrace1] := by
      rfl
    rw [htr]
    intro tr htrm
    rcases List.mem_cons.mp htrm with rfl | htrm2
    · constructor
      · show List.Pairwise (· < ·) [(10 : Int), 11]
        simp
      · intro r hr
        rcases List.mem_cons.mp hr with rfl | hr2
        · show (0 : Int) ≤ 10
          omega
        · rcases List.mem_cons.mp hr2 with rfl | hr3
          · show (0 : Int) ≤ 11
            omega
          · cases hr3
    · rcases List.mem_cons.mp htrm2 with rfl | habs
      · exact ⟨List.Pairwise.nil, fun r hr => by cases hr⟩
      · cases habs
  obtain ⟨_, hmono, hmax, _, _⟩ := c4_cursor_invariant scenarioHandler
    scenarioStimuli (LongPollingRunner.init 100 5) hpre
  have hids : traceIds (runLoop scenarioHandler scenarioStimuli
      (LongPollingRunner.init 100 5)).trace = [10, 11] := by rfl
  exact ⟨hpre, hmono, hmax (by rw [hids]; simp)⟩

/-! ## Claim C9: optional-field presence -/

/-- A minimal chat object. -/
def c9ChatJson : Json := .obj [("id", .num 5), ("type", .str "private")]

/-- A message payload with `delete_chat_photo` absent. -/
def c9MsgAbsent : Json :=
  .obj [("message_id", .num 1), ("date", .num 0), ("chat", c9ChatJson)]

/-- The same message payload with `delete_chat_photo` present and false. -/
def c9MsgPresent : Json :=
  .obj [("message_id", .num 1), ("date", .num 0), ("chat", c9ChatJson),
    ("delete_chat_photo", .bool false)]

/-- The one message value both payloads decode to. -/
def c9Decoded : Message :=
  .mk ⟨.num 1, none, 0, ⟨.num 5, .«private», none, none, none, none⟩,
    none, none, none, none, none, none, none, none, none, none, none, none,
    none, none, none, none, none, none, none, none,
    .bool false, .bool false, .bool false, .bool false, none, none⟩ none none

/-- The minimal chat object with `title` present and null. -/
def c9ChatNullTitle : Json :=
  .obj [("id", .num 5), ("type", .str "private"), ("title", .null)]

/-- The one chat value both chat payloads decode to. -/
def c9ChatDecoded : Chat := ⟨.num 5, .«private», none, none, none, none⟩

/-- Counterexample to claim C9 as stated, in both of its failure modes.
First: `delete_chat_photo` is an optional field of the decoded `Message`
(the source reads it with `message.get("delete_chat_photo", False)`),
yet a payload in which it is absent decodes to exactly the same value as
a payload in which it is present and false — the absent field collapses
into the `False` default.  Second: `title` is an optional field of the
decoded `Chat` read with a plain `chat.get("title")`, and a payload in
which it is present and null decodes to exactly the same value as a
payload in which it is absent — `dict.get` returns Python `None` in
both cases, so a present null collapses into the absent marker. -/
theorem c9_counterexample :
    (c9MsgAbsent.getField "delete_chat_photo" = none
      ∧ c9MsgPresent.getField "delete_chat_photo" = some (Json.bool false)
      ∧ decodeMessage c9MsgAbsent = .ok c9Decoded
      ∧ decodeMessage c9MsgPresent = .ok c9Decoded)
    ∧ (c9ChatJson.getField "title" = none
      ∧ c9ChatNullTitle.getField "title" = some Json.null
      ∧ decodeChat c9ChatJson = .ok c9ChatDecoded
      ∧ decodeChat c9ChatNullTitle = .ok c9ChatDecoded) :=
  ⟨⟨rfl, rfl, rfl, rfl⟩, ⟨rfl, rfl, rfl, rfl⟩⟩

/-- Claim C9, amended: in every decoded event object, every optional
field read through `get_optional` or `get_optional_array` maps an
absent key to the explicit `none` marker and a present (decodable) key
to a `some` value, so for those fields absence is distinguishable from
every present value.  Two families of fields are excepted.  Every field
read with a plain `obj.get(key)` (`text`, `caption`, `title`,
`mime_type`, `file_size`, ...) holds the null-collapsed lookup
(`pyOptional`): a present JSON `null` yields the same `None` as an
absent key, though every present non-null value is still a distinct
`some`.  And the four `Message` service flags (`delete_chat_photo`,
`group_chat_created`, `supergroup_chat_created`,
`channel_chat_created`), read with a `False` default, hold the raw
lookup with absence collapsed to `false`. -/
theorem c9_optional_presence_amended :
    (∀ (j : Json) (u : Update), decodeUpdate j = .ok u →
      u.message.isSome = (j.getField "message").isSome
      ∧ u.edited_message.isSome = (j.getField "edited_message").isSome
      ∧ u.channel_post.isSome = (j.getField "channel_post").isSome
      ∧ u.edited_channel_post.isSome = (j.getField "edited_channel_post").isSome
      ∧ u.inline_query.isSome = (j.getField "inline_query").isSome
      ∧ u.chosen_inline_result.isSome = (j.getField "chosen_inline_result").isSome
      ∧ u.callback_query.isSome = (j.getField "callback_query").isSome)
    ∧ (∀ (fuel : Nat) (j : Json) (m : Message), decodeMessageF fuel j = .ok m →
      m.data.from_.isSome = (j.getField "from").isSome
      ∧ m.data.forward_from.isSome = (j.getField "forward_from").isSome
      ∧ m.data.forward_from_chat.isSome = (j.getField "forward_from_chat").isSome
      ∧ m.data.forward_date.isSome = (j.getField "forward_date").isSome
      ∧ m.reply_to_message.isSome = (j.getField "reply_to_message").isSome
      ∧ m.data.edit_date.isSome = (j.getField "edit_date").isSome
      ∧ m.data.text = pyOptional (j.getField "text")
      ∧ m.data.entities.isSome = (j.getField "entities").isSome
      ∧ m.data.audio.isSome = (j.getField "audio").isSome
      ∧ m.data.document.isSome = (j.getField "document").isSome
      ∧ m.data.photo.isSome = (j.getField "photo").isSome
      ∧ m.data.sticker.isSome = (j.getField "sticker").isSome
      ∧ m.data.video.isSome = (j.getField "video").isSome
      ∧ m.data.voice.isSome = (j.getField "voice").isSome
      ∧ m.data.caption = pyOptional (j.getField "caption")
      ∧ m.data.contact.isSome = (j.getField "contact").isSome
      ∧ m.data.location.isSome = (j.getField "location").isSome
      ∧ m.data.venue.isSome = (j.getField "venue").isSome
      ∧ m.data.new_chat_member.isSome = (j.getField "new_chat_member").isSome
      ∧ m.data.left_chat_member.isSome = (j.getField "left_chat_member").isSome
      ∧ m.data.new_chat_title = pyOptional (j.getField "new_chat_title")
      ∧ m.data.new_chat_photo.isSome = (j.getField "new_chat_photo").isSome
      ∧ m.data.delete_chat_photo =
          (j.getField "delete_chat_photo").getD (Json.bool false)
      ∧ m.data.group_chat_created =
          (j.getField "group_chat_created").getD (Json.bool false)
      ∧ m.data.supergroup_chat_created =
          (j.getField "supergroup_chat_created").getD (Json.bool false)
      ∧ m.data.channel_chat_created =
          (j.getField "channel_chat_created").getD (Json.bool false)
      ∧ m.data.migrate_to_chat_id = pyOptional (j.getField "migrate_to_chat_id")
      ∧ m.data.migrate_from_chat_id = pyOptional (j.getField "migrate_from_chat_id")
      ∧ m.pinned_message.isSome = (j.getField "pinned_message").isSome)
    ∧ (∀ (j : Json) (u : User), decodeUser j = .ok u →
      u.last_name = pyOptional (j.getField "last_name") ∧ u.username = pyOptional (j.getField "username"))
    ∧ (∀ (j : Json) (c : Chat), decodeChat j = .ok c →
      c.title = pyOptional (j.getField "title") ∧ c.username = pyOptional (j.getField "username")
      ∧ c.first_name = pyOptional (j.getField "first_name")
      ∧ c.last_name = pyOptional (j.getField "last_name"))
    ∧ (∀ (j : Json) (e : MessageEntity), decodeMessageEntity j = .ok e →
      e.url = pyOptional (j.getField "url") ∧ e.user.isSome = (j.getField "user").isSome)
    ∧ (∀ (j : Json) (a : Audio), decodeAudio j = .ok a →
      a.performer = pyOptional (j.getField "performer") ∧ a.title = pyOptional (j.getField "title")
      ∧ a.mime_type = pyOptional (j.getField "mime_type")
      ∧ a.file_size = pyOptional (j.getField "file_size"))
    ∧ (∀ (j : Json) (p : PhotoSize), decodePhotoSize j = .ok p →
      p.file_size = pyOptional (j.getField "file_size"))
    ∧ (∀ (j : Json) (d : Document), decodeDocument j = .ok d →
      d.thumbnail.isSome = (j.getField "thumb").isSome
      ∧ d.file_name = pyOptional (j.getField "file_name")
      ∧ d.mime_type = pyOptional (j.getField "mime_type")
      ∧ d.file_size = pyOptional (j.getField "file_size"))
    ∧ (∀ (j : Json) (s : Sticker), decodeSticker j = .ok s →
      s.thumbnail.isSome = (j.getField "thumb").isSome
      ∧ s.emoji = pyOptional (j.getField "emoji") ∧ s.file_size = pyOptional (j.getField "file_size"))
    ∧ (∀ (j : Json) (v : Video), decodeVideo j = .ok v →
      v.thumbnail.isSome = (j.getField "thumb").isSome
      ∧ v.mime_type = pyOptional (j.getField "mime_type")
      ∧ v.file_size = pyOptional (j.getField "file_size"))
    ∧ (∀ (j : Json) (v : Voice), decodeVoice j = .ok v →
      v.mime_type = pyOptional (j.getField "mime_type") ∧ v.file_size = pyOptional (j.getField "file_size"))
    ∧ (∀ (j : Json) (c : Contact), decodeContact j = .ok c →
      c.last_name = pyOptional (j.getField "last_name") ∧ c.user_id = pyOptional (j.getField "user_id"))
    ∧ (∀ (j : Json) (v : Venue), decodeVenue j = .ok v →
      v.foursquare_id = pyOptional (j.getField "foursquare_id"))
    ∧ (∀ (j : Json) (q : InlineQuery), decodeInlineQuery j = .ok q →
      q.location.isSome = (j.getField "location").isSome)
    ∧ (∀ (j : Json) (r : ChosenInlineResult), decodeChosenInlineResult j = .ok r →
      r.location.isSome = (j.getField "location").isSome
      ∧ r.inline_message_id = pyOptional (j.getField "inline_message_id"))
    ∧ (∀ (j : Json) (q : CallbackQuery), decodeCallbackQuery j = .ok q →
      q.message.isSome = (j.getField "message").isSome
      ∧ q.inline_message_id = pyOptional (j.getField "inline_message_id")) :=
  ⟨fun _ _ h => decodeUpdate_opt h,
   fun _ _ _ h => decodeMessageF_opt h,
   fun _ _ h => decodeUser_opt h,
   fun _ _ h => decodeChat_opt h,
   fun _ _ h => decodeMessageEntity_opt h,
   fun _ _ h => decodeAudio_opt h,
   fun _ _ h => decodePhotoSize_opt h,
   fun _ _ h => decodeDocument_opt h,
   fun _ _ h => decodeSticker_opt h,
   fun _ _ h => decodeVideo_opt h,
   fun _ _ h => decodeVoice_opt h,
   fun _ _ h => decodeContact_opt h,
   fun _ _ h => decodeVenue_opt h,
   fun _ _ h => decodeInlineQuery_opt h,
   fun _ _ h => decodeChosenInlineResult_opt h,
   fun _ _ h => decodeCallbackQuery_opt h⟩

/-- Witness for the amended C9: a decoded update with no payload keys has
every payload field `none`, and the decoded counterexample message keeps
`text` at the explicit absent marker. -/
theorem c9_optional_presence_amended_witness :
    decodeUpdate (Json.obj [("update_id", Json.num 7)]) =
      .ok ⟨7, none, none, none, none, none, none, none⟩
    ∧ (⟨7, none, none, none, none, none, none, none⟩ : Update).message.isSome =
        ((Json.obj [("update_id", Json.num 7)]).getField "message").isSome
    ∧ decodeMessageF (Json.size c9MsgAbsent) c9MsgAbsent = .ok c9Decoded
    ∧ c9Decoded.data.text = pyOptional (c9MsgAbsent.getField "text")
    ∧ c9Decoded.data.delete_chat_photo =
        (c9MsgAbsent.getField "delete_chat_photo").getD (Json.bool false) := by
  have hu := (c9_optional_presence_amended.1
    (Json.obj [("update_id", Json.num 7)])
    ⟨7, none, none, none, none, none, none, none⟩ (by rfl)).1
  have hm := c9_optional_presence_amended.2.1
    (Json.size c9MsgAbsent) c9MsgAbsent c9Decoded (by rfl)
  exact ⟨by rfl, hu, by rfl,
    hm.2.2.2.2.2.2.1,
    hm.2.2.2.2.2.2.2.2.2.2.2.2.2.2.2.2.2.2.2.2.2.2.1⟩

end Aiotg
